import Mathlib

/-!
Verification of the claude-agent-kit bridge: a shallow embedding, in Lean, of
the message codec, control engine, session actor and peer adapter of the
repository (crates `agent-sdk` and `websocket`), together with theorems that
settle the specification claims against the code.

Conventions of the embedding:
* `serde_json::Value` is modelled by `Json` below.  Objects are kept as
  key-sorted duplicate-free association lists, matching the `BTreeMap`
  representation used by `serde_json`; every object construction goes through
  `Json.mkObj`, which canonicalizes exactly as repeated `BTreeMap::insert`
  does (later keys win).
* JSON numbers are modelled by exact rationals; `as_i64` checks integrality
  and the 64-bit range as `serde_json` does.  No claim depends on `f64`
  rounding.
* Error strings from the source are reproduced without the single quotes
  around field names.
* Fallible Rust functions returning `Result` become `Except SdkError`;
  `Option`-returning accessors become `Option`.
-/

namespace AgentKit

/-- Model of `serde_json::Value`. -/
inductive Json where
  | null
  | bool (b : Bool)
  | num (q : Rat)
  | str (s : String)
  | arr (elems : List Json)
  | obj (kvs : List (String × Json))
deriving Repr

namespace Json

/-- Lexicographic comparison of character lists (structural, so that it
computes in the kernel). -/
def charListLt : List Char → List Char → Bool
  | [], [] => false
  | [], _ :: _ => true
  | _ :: _, [] => false
  | a :: as, b :: bs =>
    if a < b then true else if b < a then false else charListLt as bs

/-- The key order of `BTreeMap<String, _>`: lexicographic on the character
sequences (which coincides with the byte order of their UTF-8). -/
def strLtB (a b : String) : Bool := charListLt a.data b.data

/-- Ordered insert with replacement, mirroring `BTreeMap::insert`. -/
def insertKey : List (String × Json) → String → Json → List (String × Json)
  | [], k, v => [(k, v)]
  | (k1, v1) :: rest, k, v =>
    if strLtB k k1 then (k, v) :: (k1, v1) :: rest
    else if k = k1 then (k, v) :: rest
    else (k1, v1) :: insertKey rest k v

/-- Build an object the way `serde_json::Map` does: keys sorted, later
occurrences of a key overriding earlier ones. -/
def mkObj (kvs : List (String × Json)) : Json :=
  .obj (kvs.foldl (fun acc kv => insertKey acc kv.1 kv.2) [])

/-- Association-list lookup used by `Value::get`. -/
def lookupList : List (String × Json) → String → Option Json
  | [], _ => none
  | (k1, v) :: rest, k => if k = k1 then some v else lookupList rest k

/-- `Value::get(key)`: `Some` field of an object, else `None`. -/
def get? : Json → String → Option Json
  | .obj kvs, k => lookupList kvs k
  | _, _ => none

/-- `Value::as_str`. -/
def asStr? : Json → Option String
  | .str s => some s
  | _ => none

/-- `Value::as_bool`. -/
def asBool? : Json → Option Bool
  | .bool b => some b
  | _ => none

/-- `Value::as_i64`: the number must be an integer fitting in 64 bits. -/
def asInt? : Json → Option Int
  | .num q =>
    if q.den = 1 ∧ -(2 ^ 63) ≤ q.num ∧ q.num < 2 ^ 63 then some q.num else none
  | _ => none

/-- `Value::as_f64`, modelled exactly (rounding to `f64` is not modelled). -/
def asRat? : Json → Option Rat
  | .num q => some q
  | _ => none

/-- `Value::as_array`. -/
def asArr? : Json → Option (List Json)
  | .arr elems => some elems
  | _ => none

/-- `Value::is_object` used via `as_object().is_some()`; keeps the value. -/
def asObjJson? : Json → Option Json
  | .obj kvs => some (.obj kvs)
  | _ => none

end Json

/-- The SDK error enum (`src/agent-sdk/src/types/error.rs` is referenced by
the sources; the variants used by the embedded code are reproduced here). -/
inductive SdkError where
  | messageParse (msg : String)
  | controlProtocol (msg : String)
  | timeout (msg : String)
  | invalidConfig (msg : String)
  | cliConnection (msg : String)
  | unknown (msg : String)
deriving Repr, DecidableEq

/-- `AssistantMessageError` from `src/agent-sdk/src/types/messages.rs`. -/
inductive AssistantMessageError where
  | authenticationFailed
  | billingError
  | rateLimit
  | invalidRequest
  | serverError
  | unknownError
deriving Repr, DecidableEq

/-- `ContentBlockContent` (untagged string-or-array) from
`src/agent-sdk/src/types/messages.rs`. -/
inductive ContentBlockContent where
  | string (s : String)
  | array (elems : List Json)
deriving Repr

/-- `ContentBlock` from `src/agent-sdk/src/types/messages.rs`. -/
inductive ContentBlock where
  | text (text : String)
  | thinking (thinking : String) (signature : String)
  | toolUse (id : String) (name : String) (input : Json)
  | toolResult (toolUseId : String) (content : Option ContentBlockContent)
      (isError : Option Bool)
deriving Repr

/-- `MessageContent` (untagged string-or-blocks). -/
inductive MessageContent where
  | string (s : String)
  | blocks (bs : List ContentBlock)
deriving Repr

/-- `UserMessage`. -/
structure UserMessage where
  content : MessageContent
  uuid : Option String
  parentToolUseId : Option String
deriving Repr

/-- `AssistantMessage`. -/
structure AssistantMessage where
  content : List ContentBlock
  model : String
  parentToolUseId : Option String
  error : Option AssistantMessageError
deriving Repr

/-- `SystemMessage`: the `data` field keeps the whole original value. -/
structure SystemMessage where
  subtype : String
  data : Json
deriving Repr

/-- `ResultMessage`. -/
structure ResultMessage where
  subtype : String
  durationMs : Int
  durationApiMs : Int
  isError : Bool
  numTurns : Int
  sessionId : String
  totalCostUsd : Option Rat
  usage : Option Json
  result : Option String
  structuredOutput : Option Json
deriving Repr

/-- `StreamEvent`. -/
structure StreamEvent where
  uuid : String
  sessionId : String
  event : Json
  parentToolUseId : Option String
deriving Repr

/-- `Message` (untagged union) from `src/agent-sdk/src/types/messages.rs`. -/
inductive Message where
  | user (m : UserMessage)
  | assistant (m : AssistantMessage)
  | system (m : SystemMessage)
  | result (m : ResultMessage)
  | stream (m : StreamEvent)
deriving Repr

/-- Truncating cast `as i32` applied to the parsed `num_turns` i64. -/
def i32ofInt (n : Int) : Int :=
  (n + 2 ^ 31) % 2 ^ 32 - 2 ^ 31

/-- `serde_json::from_value::<AssistantMessageError>(v).ok()`:
snake_case string decoding of the enum. -/
def assistantMessageErrorFromJson (v : Json) : Option AssistantMessageError :=
  match v.asStr? with
  | some "authentication_failed" => some .authenticationFailed
  | some "billing_error" => some .billingError
  | some "rate_limit" => some .rateLimit
  | some "invalid_request" => some .invalidRequest
  | some "server_error" => some .serverError
  | some "unknown" => some .unknownError
  | _ => none

/-- `serde_json::from_value::<ContentBlockContent>(v).ok()`: untagged,
a string or an array of raw values. -/
def contentBlockContentFromJson (v : Json) : Option ContentBlockContent :=
  match v with
  | .str s => some (.string s)
  | .arr elems => some (.array elems)
  | _ => none

/-- One content block of `parse_content_blocks`
(`src/agent-sdk/src/internal/message_parser.rs`). -/
def parseContentBlock (block : Json) : Except SdkError ContentBlock :=
  match block.asObjJson? with
  | none => .error (.messageParse "Content block must be an object")
  | some blockObj =>
    match (blockObj.get? "type").bind Json.asStr? with
    | none => .error (.messageParse "Missing type in content block")
    | some blockType =>
      match blockType with
      | "text" =>
        match (blockObj.get? "text").bind Json.asStr? with
        | none => .error (.messageParse "Missing text field")
        | some text => .ok (.text text)
      | "thinking" =>
        match (blockObj.get? "thinking").bind Json.asStr? with
        | none => .error (.messageParse "Missing thinking field")
        | some thinking =>
          match (blockObj.get? "signature").bind Json.asStr? with
          | none => .error (.messageParse "Missing signature field")
          | some signature => .ok (.thinking thinking signature)
      | "tool_use" =>
        match (blockObj.get? "id").bind Json.asStr? with
        | none => .error (.messageParse "Missing id field")
        | some id =>
          match (blockObj.get? "name").bind Json.asStr? with
          | none => .error (.messageParse "Missing name field")
          | some name =>
            match blockObj.get? "input" with
            | none => .error (.messageParse "Missing input field")
            | some input => .ok (.toolUse id name input)
      | "tool_result" =>
        match (blockObj.get? "tool_use_id").bind Json.asStr? with
        | none => .error (.messageParse "Missing tool_use_id field")
        | some toolUseId =>
          let content := (blockObj.get? "content").bind contentBlockContentFromJson
          let isError := (blockObj.get? "is_error").bind Json.asBool?
          .ok (.toolResult toolUseId content isError)
      | other => .error (.messageParse ("Unknown content block type: " ++ other))

/-- `parse_content_blocks`. -/
def parseContentBlocks : List Json → Except SdkError (List ContentBlock)
  | [] => .ok []
  | b :: bs => do
    let cb ← parseContentBlock b
    let rest ← parseContentBlocks bs
    pure (cb :: rest)

/-- `parse_user_message`. -/
def parseUserMessage (data : Json) : Except SdkError Message :=
  let parentToolUseId := (data.get? "parent_tool_use_id").bind Json.asStr?
  let uuid := (data.get? "uuid").bind Json.asStr?
  match (data.get? "message").bind Json.asObjJson? with
  | none => .error (.messageParse "Missing message field")
  | some messageObj =>
    match messageObj.get? "content" with
    | none => .error (.messageParse "Missing content field")
    | some contentValue =>
      match contentValue.asStr? with
      | some s => .ok (.user ⟨.string s, uuid, parentToolUseId⟩)
      | none =>
        match contentValue.asArr? with
        | some contentArray =>
          (parseContentBlocks contentArray).map
            (fun bs => .user ⟨.blocks bs, uuid, parentToolUseId⟩)
        | none => .error (.messageParse "Invalid content format")

/-- `parse_assistant_message`. -/
def parseAssistantMessage (data : Json) : Except SdkError Message :=
  let parentToolUseId := (data.get? "parent_tool_use_id").bind Json.asStr?
  match (data.get? "message").bind Json.asObjJson? with
  | none => .error (.messageParse "Missing message field")
  | some messageObj =>
    match (messageObj.get? "model").bind Json.asStr? with
    | none => .error (.messageParse "Missing model field")
    | some model =>
      match (messageObj.get? "content").bind Json.asArr? with
      | none => .error (.messageParse "Missing content array")
      | some contentArray =>
        (parseContentBlocks contentArray).map (fun content =>
          let err := (messageObj.get? "error").bind assistantMessageErrorFromJson
          .assistant ⟨content, model, parentToolUseId, err⟩)

/-- `parse_system_message`: the entire original value is kept in `data`. -/
def parseSystemMessage (data : Json) : Except SdkError Message :=
  match (data.get? "subtype").bind Json.asStr? with
  | none => .error (.messageParse "Missing subtype field")
  | some subtype => .ok (.system ⟨subtype, data⟩)

/-- `parse_result_message`. -/
def parseResultMessage (data : Json) : Except SdkError Message :=
  match (data.get? "subtype").bind Json.asStr? with
  | none => .error (.messageParse "Missing subtype field")
  | some subtype =>
    match (data.get? "duration_ms").bind Json.asInt? with
    | none => .error (.messageParse "Missing duration_ms field")
    | some durationMs =>
      match (data.get? "duration_api_ms").bind Json.asInt? with
      | none => .error (.messageParse "Missing duration_api_ms field")
      | some durationApiMs =>
        match (data.get? "is_error").bind Json.asBool? with
        | none => .error (.messageParse "Missing is_error field")
        | some isError =>
          match (data.get? "num_turns").bind Json.asInt? with
          | none => .error (.messageParse "Missing num_turns field")
          | some numTurns =>
            match (data.get? "session_id").bind Json.asStr? with
            | none => .error (.messageParse "Missing session_id field")
            | some sessionId =>
              let totalCostUsd := (data.get? "total_cost_usd").bind Json.asRat?
              let usage := data.get? "usage"
              let result := (data.get? "result").bind Json.asStr?
              let structuredOutput := data.get? "structured_output"
              .ok (.result ⟨subtype, durationMs, durationApiMs, isError,
                i32ofInt numTurns, sessionId, totalCostUsd, usage, result,
                structuredOutput⟩)

/-- `parse_stream_event`. -/
def parseStreamEvent (data : Json) : Except SdkError Message :=
  match (data.get? "uuid").bind Json.asStr? with
  | none => .error (.messageParse "Missing uuid field")
  | some uuid =>
    match (data.get? "session_id").bind Json.asStr? with
    | none => .error (.messageParse "Missing session_id field")
    | some sessionId =>
      match data.get? "event" with
      | none => .error (.messageParse "Missing event field")
      | some event =>
        let parentToolUseId := (data.get? "parent_tool_use_id").bind Json.asStr?
        .ok (.stream ⟨uuid, sessionId, event, parentToolUseId⟩)

/-- `parse_message` (`src/agent-sdk/src/internal/message_parser.rs`). -/
def parseMessage (data : Json) : Except SdkError Message :=
  match data.asObjJson? with
  | none => .error (.messageParse "Expected JSON object")
  | some _ =>
    match (data.get? "type").bind Json.asStr? with
    | none => .error (.messageParse "Missing type field")
    | some messageType =>
      match messageType with
      | "user" => parseUserMessage data
      | "assistant" => parseAssistantMessage data
      | "system" => parseSystemMessage data
      | "result" => parseResultMessage data
      | "stream_event" => parseStreamEvent data
      | other => .error (.messageParse ("Unknown message type: " ++ other))

/-! Serialization, following the `serde` derives on the message types:
`Message`, `MessageContent` and `ContentBlockContent` are untagged;
`ContentBlock` is internally tagged by `type` in snake_case; fields with
`skip_serializing_if = Option::is_none` are omitted when `None`. -/

/-- Optional field helper for `skip_serializing_if = Option::is_none`. -/
def optField (key : String) (v : Option Json) : List (String × Json) :=
  match v with
  | none => []
  | some j => [(key, j)]

/-- Serialize `AssistantMessageError` (snake_case). -/
def serializeAssistantMessageError : AssistantMessageError → Json
  | .authenticationFailed => .str "authentication_failed"
  | .billingError => .str "billing_error"
  | .rateLimit => .str "rate_limit"
  | .invalidRequest => .str "invalid_request"
  | .serverError => .str "server_error"
  | .unknownError => .str "unknown"

/-- Serialize `ContentBlockContent` (untagged). -/
def serializeContentBlockContent : ContentBlockContent → Json
  | .string s => .str s
  | .array elems => .arr elems

/-- Serialize `ContentBlock` (tag field `type`, snake_case variants). -/
def serializeContentBlock : ContentBlock → Json
  | .text text => Json.mkObj [("type", .str "text"), ("text", .str text)]
  | .thinking thinking signature =>
    Json.mkObj [("type", .str "thinking"), ("thinking", .str thinking),
      ("signature", .str signature)]
  | .toolUse id name input =>
    Json.mkObj [("type", .str "tool_use"), ("id", .str id),
      ("name", .str name), ("input", input)]
  | .toolResult toolUseId content isError =>
    Json.mkObj ([("type", .str "tool_result"), ("tool_use_id", .str toolUseId)]
      ++ optField "content" (content.map serializeContentBlockContent)
      ++ optField "is_error" (isError.map Json.bool))

/-- Serialize `MessageContent` (untagged). -/
def serializeMessageContent : MessageContent → Json
  | .string s => .str s
  | .blocks bs => .arr (bs.map serializeContentBlock)

/-- Serialize `UserMessage`. -/
def serializeUserMessage (m : UserMessage) : Json :=
  Json.mkObj ([("content", serializeMessageContent m.content)]
    ++ optField "uuid" (m.uuid.map Json.str)
    ++ optField "parent_tool_use_id" (m.parentToolUseId.map Json.str))

/-- Serialize `AssistantMessage`. -/
def serializeAssistantMessage (m : AssistantMessage) : Json :=
  Json.mkObj ([("content", .arr (m.content.map serializeContentBlock)),
      ("model", .str m.model)]
    ++ optField "parent_tool_use_id" (m.parentToolUseId.map Json.str)
    ++ optField "error" (m.error.map serializeAssistantMessageError))

/-- Serialize `SystemMessage`. -/
def serializeSystemMessage (m : SystemMessage) : Json :=
  Json.mkObj [("subtype", .str m.subtype), ("data", m.data)]

/-- Serialize `ResultMessage`. -/
def serializeResultMessage (m : ResultMessage) : Json :=
  Json.mkObj ([("subtype", .str m.subtype),
      ("duration_ms", .num m.durationMs),
      ("duration_api_ms", .num m.durationApiMs),
      ("is_error", .bool m.isError),
      ("num_turns", .num m.numTurns),
      ("session_id", .str m.sessionId)]
    ++ optField "total_cost_usd" (m.totalCostUsd.map Json.num)
    ++ optField "usage" m.usage
    ++ optField "result" (m.result.map Json.str)
    ++ optField "structured_output" m.structuredOutput)

/-- Serialize `StreamEvent`. -/
def serializeStreamEvent (m : StreamEvent) : Json :=
  Json.mkObj ([("uuid", .str m.uuid), ("session_id", .str m.sessionId),
      ("event", m.event)]
    ++ optField "parent_tool_use_id" (m.parentToolUseId.map Json.str))

/-- Serialize `Message` (untagged: the inner struct is emitted directly,
with no `type` discriminator and no `message` wrapper). -/
def serializeMessage : Message → Json
  | .user m => serializeUserMessage m
  | .assistant m => serializeAssistantMessage m
  | .system m => serializeSystemMessage m
  | .result m => serializeResultMessage m
  | .stream m => serializeStreamEvent m

end AgentKit

namespace AgentKit

/-! Lookup lemmas for canonicalized objects. -/

theorem Json.lookupList_insertKey (l : List (String × Json)) (k k2 : String)
    (v : Json) :
    Json.lookupList (Json.insertKey l k v) k2 =
      if k2 = k then some v else Json.lookupList l k2 := by
  induction l with
  | nil => simp [Json.insertKey, Json.lookupList]
  | cons hd tl ih =>
    obtain ⟨k1, v1⟩ := hd
    by_cases h1 : Json.strLtB k k1 = true
    · simp [Json.insertKey, h1, Json.lookupList]
    · by_cases h2 : k = k1
      · subst h2
        simp only [Json.insertKey, if_neg h1, if_pos rfl, Json.lookupList]
        by_cases h3 : k2 = k
        · simp [h3]
        · simp [h3]
      · simp only [Json.insertKey, if_neg h1, if_neg h2, Json.lookupList]
        by_cases h3 : k2 = k1
        · subst h3
          have : k2 ≠ k := fun h => h2 h.symm
          simp [this, ih]
        · simp [h3, ih]

theorem Json.lookupList_append (a b : List (String × Json)) (k : String) :
    Json.lookupList (a ++ b) k =
      match Json.lookupList a k with
      | some v => some v
      | none => Json.lookupList b k := by
  induction a with
  | nil => simp [Json.lookupList]
  | cons hd tl ih =>
    obtain ⟨k1, v1⟩ := hd
    by_cases h : k = k1
    · simp [Json.lookupList, h]
    · simp [Json.lookupList, h, ih]

theorem Json.lookupList_foldl_insert (l acc : List (String × Json)) (k : String) :
    Json.lookupList
        (l.foldl (fun a kv => Json.insertKey a kv.1 kv.2) acc) k =
      match Json.lookupList l.reverse k with
      | some v => some v
      | none => Json.lookupList acc k := by
  induction l generalizing acc with
  | nil => simp [Json.lookupList]
  | cons hd tl ih =>
    simp only [List.foldl_cons, List.reverse_cons, ih,
      Json.lookupList_append]
    cases Json.lookupList tl.reverse k with
    | some v => rfl
    | none =>
      simp only [Json.lookupList_insertKey, Json.lookupList]
      by_cases h : k = hd.1
      · simp [h]
      · simp [h]

/-- Field lookup on a canonicalized object: the last binding of the key in
the construction list wins, as with repeated `BTreeMap::insert`. -/
theorem Json.get?_mkObj (kvs : List (String × Json)) (k : String) :
    (Json.mkObj kvs).get? k = Json.lookupList kvs.reverse k := by
  simp only [Json.mkObj, Json.get?, Json.lookupList_foldl_insert,
    Json.lookupList]
  cases Json.lookupList kvs.reverse k <;> rfl

end AgentKit

namespace AgentKit

/-! ## Claim C2: serialize after parse -/

/-- A parseable `User` line, as received from the CLI (keys in the sorted
order `serde_json` keeps them in). -/
def userLineExample : Json :=
  .obj [("message", .obj [("content", .str "Hello")]), ("type", .str "user")]

/-- The value `parse_message` produces for `userLineExample`. -/
def userLineParsed : Message :=
  .user ⟨.string "Hello", none, none⟩

/-- A parseable `System{init}` line. -/
def systemLineExample : Json :=
  .obj [("session_id", .str "S1"), ("subtype", .str "init"),
    ("type", .str "system")]

/-- The `SystemMessage` parsed from `systemLineExample`; its `data` field is
the entire original object. -/
def systemLineParsed : SystemMessage :=
  ⟨"init", systemLineExample⟩

example : parseMessage userLineExample = .ok userLineParsed := by rfl
example : serializeMessage userLineParsed = .obj [("content", .str "Hello")] := by rfl
example : parseMessage systemLineExample = .ok (.system systemLineParsed) := by rfl

/-- C2 counterexample: `Message` serializes untagged, so serializing the
value `parse_message` built from a parseable `User` line drops the `type`
discriminator (and the `message` wrapper); serialize∘parse is not the
identity on the canonical field set. -/
theorem serialize_after_parse_cex :
    parseMessage userLineExample = .ok userLineParsed ∧
    (serializeMessage userLineParsed).get? "type" = none ∧
    userLineExample.get? "type" = some (.str "user") ∧
    serializeMessage userLineParsed ≠ userLineExample := by
  refine ⟨rfl, rfl, rfl, fun h => ?_⟩
  have h2 := congrArg (fun j => Json.get? j "type") h
  exact Option.noConfusion h2

/-- C2 amended: serialization of a parsed message is untagged — the output
never carries a `type` key, so serialize∘parse is not the identity on the
canonical field set; for `system` lines the parser keeps the entire original
object (canonical and unknown keys alike) in the `data` field, and
serialization reproduces it there, next to `subtype`. -/
theorem serialize_after_parse_amended :
    (∀ m : Message, (serializeMessage m).get? "type" = none) ∧
    (∀ x : Json, x.get? "type" = some (.str "system") →
      parseMessage x = parseSystemMessage x) ∧
    (∀ (x : Json) (s : SystemMessage), parseSystemMessage x = .ok (.system s) →
      s.data = x ∧
      (serializeMessage (.system s)).get? "data" = some x ∧
      (serializeMessage (.system s)).get? "subtype" = some (.str s.subtype)) := by
  refine ⟨?_, ?_, ?_⟩
  · intro m
    cases m with
    | user u =>
      obtain ⟨c, uu, p⟩ := u
      cases uu <;> cases p <;>
        simp [serializeMessage, serializeUserMessage, optField,
          Json.get?_mkObj, Json.lookupList]
    | assistant a =>
      obtain ⟨c, mo, p, e⟩ := a
      cases p <;> cases e <;>
        simp [serializeMessage, serializeAssistantMessage, optField,
          Json.get?_mkObj, Json.lookupList]
    | system s =>
      simp [serializeMessage, serializeSystemMessage, Json.get?_mkObj,
        Json.lookupList]
    | result r =>
      obtain ⟨su, d1, d2, ie, nt, si, tc, us, re, so⟩ := r
      cases tc <;> cases us <;> cases re <;> cases so <;>
        simp [serializeMessage, serializeResultMessage, optField,
          Json.get?_mkObj, Json.lookupList]
    | stream s =>
      obtain ⟨uu, si, ev, p⟩ := s
      cases p <;>
        simp [serializeMessage, serializeStreamEvent, optField,
          Json.get?_mkObj, Json.lookupList]
  · intro x h
    cases x with
    | obj kvs =>
      simp only [parseMessage, Json.asObjJson?]
      rw [h]
      rfl
    | null => exact Option.noConfusion h
    | bool b => exact Option.noConfusion h
    | num q => exact Option.noConfusion h
    | str s => exact Option.noConfusion h
    | arr elems => exact Option.noConfusion h
  · intro x s h
    unfold parseSystemMessage at h
    cases hsub : (x.get? "subtype").bind Json.asStr? with
    | none => rw [hsub] at h; exact Except.noConfusion h
    | some sub =>
      rw [hsub] at h
      have hs : SystemMessage.mk sub x = s := by
        have h1 := Except.ok.inj h
        exact Message.system.inj h1
      subst hs
      refine ⟨rfl, ?_, ?_⟩ <;>
        simp [serializeMessage, serializeSystemMessage, Json.get?_mkObj,
          Json.lookupList]

/-- Witness for `serialize_after_parse_amended` at the concrete
`System{init}` line. -/
theorem serialize_after_parse_amended_witness :
    parseMessage systemLineExample = parseSystemMessage systemLineExample ∧
    (systemLineParsed.data = systemLineExample ∧
      (serializeMessage (.system systemLineParsed)).get? "data" =
        some systemLineExample ∧
      (serializeMessage (.system systemLineParsed)).get? "subtype" =
        some (.str systemLineParsed.subtype)) :=
  ⟨serialize_after_parse_amended.2.1 systemLineExample rfl,
    serialize_after_parse_amended.2.2 systemLineExample systemLineParsed rfl⟩

end AgentKit

namespace AgentKit

/-! ## Control engine: `Query` request bookkeeping
(`src/agent-sdk/src/internal/query.rs`)

`send_control_request` increments `request_counter`, forms the request ID,
inserts a fresh one-shot sender into `pending_requests`, writes the envelope,
and awaits the receiver with a timeout (60 seconds at every call site).  The
reader task (`Query::start`) removes the entry and fulfills the sender when a
`control_response` with a matching `request_id` arrives.  One-shot senders
are identified here by the counter value of the issuing call; `fulfilled`
records each `tx.send`. -/

/-- Debug rendering of `format!("{:?}", request.get("subtype"))`; only the
string case, the one the embedded code exercises, is rendered in full. -/
def rustDebugJson : Json → String
  | .str s => "String(\"" ++ s ++ "\")"
  | _ => "<value>"

/-- Debug rendering of the `Option<&Value>` from `request.get("subtype")`. -/
def rustDebugOptJson : Option Json → String
  | none => "None"
  | some j => "Some(" ++ rustDebugJson j ++ ")"

/-- `HashMap::insert` on the pending-request table. -/
def insertAssoc : List (String × Nat) → String → Nat → List (String × Nat)
  | [], k, v => [(k, v)]
  | (k1, v1) :: rest, k, v =>
    if k = k1 then (k, v) :: rest else (k1, v1) :: insertAssoc rest k v

/-- `HashMap::get` on the pending-request table. -/
def lookupAssoc : List (String × Nat) → String → Option Nat
  | [], _ => none
  | (k1, v1) :: rest, k => if k = k1 then some v1 else lookupAssoc rest k

/-- `HashMap::remove` on the pending-request table (drops the entry). -/
def removeAssoc : List (String × Nat) → String → List (String × Nat)
  | [], _ => []
  | (k1, v1) :: rest, k =>
    if k = k1 then rest else (k1, v1) :: removeAssoc rest k

/-- State of the control engine visible to the claims: the request counter,
the pending-request table, the lines written to the CLI, and the record of
fulfilled one-shot sinks. -/
structure EngineState where
  requestCounter : Nat
  pending : List (String × Nat)
  written : List Json
  fulfilled : List (Nat × Json)

/-- The engine state at `Query::new`. -/
def engineInit : EngineState := ⟨0, [], [], []⟩

/-- `format!("req_{}_{}", counter, uuid)`. -/
def requestIdFor (counter : Nat) (uuidSuffix : String) : String :=
  "req_" ++ toString counter ++ "_" ++ uuidSuffix

/-- The outbound `control_request` envelope built by
`send_control_request`. -/
def controlRequestEnvelope (rid : String) (request : Json) : Json :=
  Json.mkObj [("type", .str "control_request"), ("request_id", .str rid),
    ("request", request)]

/-- The issuing half of `send_control_request` (query.rs lines 288-313):
bump the counter, form the request ID, insert the fresh one-shot sender into
`pending_requests`, write the envelope.  Returns the new state, the request
ID and the sink identity. -/
def issueControlRequest (s : EngineState) (uuidSuffix : String)
    (request : Json) : EngineState × String × Nat :=
  let counter := s.requestCounter + 1
  let rid := requestIdFor counter uuidSuffix
  (⟨counter, insertAssoc s.pending rid counter,
    s.written ++ [controlRequestEnvelope rid request],
    s.fulfilled⟩, rid, counter)

/-- How the await of the one-shot receiver can end. -/
inductive AwaitOutcome where
  | response (payload : Json)
  | closedChannel
  | timedOut

/-- The awaiting half of `send_control_request` (query.rs lines 315-333).
The state is threaded through unchanged: none of the three outcomes touches
the pending-request table. -/
def awaitControlResponse (s : EngineState) (request : Json)
    (outcome : AwaitOutcome) : EngineState × Except SdkError Json :=
  match outcome with
  | .timedOut =>
    (s, .error (.timeout ("Control request timeout: "
      ++ rustDebugOptJson (request.get? "subtype"))))
  | .closedChannel => (s, .error (.controlProtocol "Response channel closed"))
  | .response payload =>
    match (payload.get? "subtype").bind Json.asStr? with
    | some "error" =>
      (s, .error (.controlProtocol
        (((payload.get? "error").bind Json.asStr?).getD "Unknown error")))
    | _ => (s, .ok ((payload.get? "response").getD (Json.mkObj [])))

/-- The `control_response` arm of the reader task (query.rs lines 109-119):
look up the `request_id`, remove the entry, fulfill the sender; if the ID is
absent, log and drop. -/
def dispatchControlResponse (s : EngineState) (message : Json) : EngineState :=
  match message.get? "response" with
  | none => s
  | some response =>
    match (response.get? "request_id").bind Json.asStr? with
    | none => s
    | some rid =>
      match lookupAssoc s.pending rid with
      | none => s
      | some sink =>
        ⟨s.requestCounter, removeAssoc s.pending rid, s.written,
          s.fulfilled ++ [(sink, response)]⟩

/-- One iteration of the reader loop (query.rs lines 105-144): only
`control_response` messages touch the pending table; `control_request` is
dispatched to a handler task and everything else goes to the message
stream. -/
def engineInboundStep (s : EngineState) (message : Json) : EngineState :=
  match (message.get? "type").bind Json.asStr? with
  | some "control_response" => dispatchControlResponse s message
  | _ => s

/-- Interleavings of issuing calls and inbound messages. -/
inductive EngineStep where
  | issue (uuidSuffix : String) (request : Json)
  | inbound (message : Json)

/-- Run the engine over a sequence of steps. -/
def engineRun : EngineState → List EngineStep → EngineState
  | s, [] => s
  | s, .issue u r :: rest => engineRun (issueControlRequest s u r).1 rest
  | s, .inbound m :: rest => engineRun (engineInboundStep s m) rest

/-- All one-shot sinks known to the state: still pending, or fulfilled. -/
def engineSinks (s : EngineState) : List Nat :=
  s.pending.map Prod.snd ++ s.fulfilled.map Prod.fst

/-- Engine invariant: table keys are unique, every sink occurs at most once
across pending and fulfilled, and all sinks were drawn from the counter. -/
structure EngineInv (s : EngineState) : Prop where
  keysNodup : (s.pending.map Prod.fst).Nodup
  sinksNodup : (engineSinks s).Nodup
  sinksBound : ∀ n ∈ engineSinks s, n ≤ s.requestCounter

end AgentKit

namespace AgentKit

/-! Association-table lemmas. -/

theorem mem_insertAssoc (l : List (String × Nat)) (k : String) (v : Nat)
    (x : String × Nat) :
    x ∈ insertAssoc l k v → x = (k, v) ∨ x ∈ l := by
  induction l with
  | nil =>
    intro h
    simpa [insertAssoc] using h
  | cons hd tl ih =>
    obtain ⟨k1, v1⟩ := hd
    intro h
    by_cases hk : k = k1
    · rw [insertAssoc, if_pos hk] at h
      rcases List.mem_cons.mp h with h1 | h1
      · exact Or.inl h1
      · exact Or.inr (List.mem_cons_of_mem _ h1)
    · rw [insertAssoc, if_neg hk] at h
      rcases List.mem_cons.mp h with h1 | h1
      · exact Or.inr (List.mem_cons.mpr (Or.inl h1))
      · rcases ih h1 with h2 | h2
        · exact Or.inl h2
        · exact Or.inr (List.mem_cons_of_mem _ h2)

theorem mem_fst_insertAssoc {l : List (String × Nat)} {k : String} {v : Nat}
    {j : String} (h : j ∈ (insertAssoc l k v).map Prod.fst) :
    j = k ∨ j ∈ l.map Prod.fst := by
  rcases List.mem_map.mp h with ⟨x, hx, rfl⟩
  rcases mem_insertAssoc l k v x hx with h2 | h2
  · exact Or.inl (by rw [h2])
  · exact Or.inr (List.mem_map_of_mem _ h2)

theorem mem_snd_insertAssoc {l : List (String × Nat)} {k : String} {v : Nat}
    {n : Nat} (h : n ∈ (insertAssoc l k v).map Prod.snd) :
    n = v ∨ n ∈ l.map Prod.snd := by
  rcases List.mem_map.mp h with ⟨x, hx, rfl⟩
  rcases mem_insertAssoc l k v x hx with h2 | h2
  · exact Or.inl (by rw [h2])
  · exact Or.inr (List.mem_map_of_mem _ h2)

theorem fst_insertAssoc_nodup {l : List (String × Nat)} {k : String} {v : Nat}
    (h : (l.map Prod.fst).Nodup) :
    ((insertAssoc l k v).map Prod.fst).Nodup := by
  induction l with
  | nil => simp [insertAssoc]
  | cons hd tl ih =>
    obtain ⟨k1, v1⟩ := hd
    rw [List.map_cons, List.nodup_cons] at h
    by_cases hk : k = k1
    · rw [insertAssoc, if_pos hk, List.map_cons, List.nodup_cons]
      exact ⟨hk ▸ h.1, h.2⟩
    · rw [insertAssoc, if_neg hk, List.map_cons, List.nodup_cons]
      refine ⟨fun hmem => ?_, ih h.2⟩
      rcases mem_fst_insertAssoc hmem with h2 | h2
      · exact hk h2.symm
      · exact h.1 h2

theorem snd_insertAssoc_nodup {l : List (String × Nat)} {k : String} {v : Nat}
    (h : (l.map Prod.snd).Nodup) (hv : v ∉ l.map Prod.snd) :
    ((insertAssoc l k v).map Prod.snd).Nodup := by
  induction l with
  | nil => simp [insertAssoc]
  | cons hd tl ih =>
    obtain ⟨k1, v1⟩ := hd
    rw [List.map_cons, List.nodup_cons] at h
    rw [List.map_cons, List.mem_cons] at hv
    push_neg at hv
    by_cases hk : k = k1
    · rw [insertAssoc, if_pos hk, List.map_cons, List.nodup_cons]
      exact ⟨hv.2, h.2⟩
    · rw [insertAssoc, if_neg hk, List.map_cons, List.nodup_cons]
      refine ⟨fun hmem => ?_, ih h.2 hv.2⟩
      rcases mem_snd_insertAssoc hmem with h2 | h2
      · exact hv.1 h2.symm
      · exact h.1 h2

theorem lookupAssoc_insertAssoc_self (l : List (String × Nat)) (k : String)
    (v : Nat) : lookupAssoc (insertAssoc l k v) k = some v := by
  induction l with
  | nil => simp [insertAssoc, lookupAssoc]
  | cons hd tl ih =>
    obtain ⟨k1, v1⟩ := hd
    by_cases hk : k = k1
    · simp [insertAssoc, lookupAssoc, hk]
    · simp [insertAssoc, lookupAssoc, hk, ih]

theorem lookupAssoc_eq_none_of_not_mem {l : List (String × Nat)} {k : String}
    (h : k ∉ l.map Prod.fst) : lookupAssoc l k = none := by
  induction l with
  | nil => rfl
  | cons hd tl ih =>
    obtain ⟨k1, v1⟩ := hd
    rw [List.map_cons, List.mem_cons] at h
    push_neg at h
    simp [lookupAssoc, h.1, ih h.2]

theorem lookupAssoc_removeAssoc_self {l : List (String × Nat)} {k : String}
    (h : (l.map Prod.fst).Nodup) :
    lookupAssoc (removeAssoc l k) k = none := by
  induction l with
  | nil => rfl
  | cons hd tl ih =>
    obtain ⟨k1, v1⟩ := hd
    rw [List.map_cons, List.nodup_cons] at h
    by_cases hk : k = k1
    · rw [removeAssoc, if_pos hk]
      exact lookupAssoc_eq_none_of_not_mem (hk ▸ h.1)
    · rw [removeAssoc, if_neg hk, lookupAssoc, if_neg hk]
      exact ih h.2

theorem perm_removeAssoc {l : List (String × Nat)} {k : String} {v : Nat}
    (h : lookupAssoc l k = some v) :
    l.Perm ((k, v) :: removeAssoc l k) := by
  induction l with
  | nil => exact Option.noConfusion h
  | cons hd tl ih =>
    obtain ⟨k1, v1⟩ := hd
    by_cases hk : k = k1
    · rw [lookupAssoc, if_pos hk] at h
      obtain rfl := Option.some.inj h
      rw [removeAssoc, if_pos hk, hk]
    · rw [lookupAssoc, if_neg hk] at h
      rw [removeAssoc, if_neg hk]
      exact ((ih h).cons (k1, v1)).trans (List.Perm.swap _ _ _)

theorem fst_removeAssoc_sublist (l : List (String × Nat)) (k : String) :
    ((removeAssoc l k).map Prod.fst).Sublist (l.map Prod.fst) := by
  induction l with
  | nil => simp [removeAssoc]
  | cons hd tl ih =>
    obtain ⟨k1, v1⟩ := hd
    by_cases hk : k = k1
    · rw [removeAssoc, if_pos hk, List.map_cons]
      exact List.Sublist.cons _ (List.Sublist.refl _)
    · rw [removeAssoc, if_neg hk, List.map_cons, List.map_cons]
      exact ih.cons₂ _

end AgentKit

namespace AgentKit

/-! Invariant preservation for the control engine. -/

theorem engineInv_issue (s : EngineState) (u : String) (r : Json)
    (h : EngineInv s) : EngineInv (issueControlRequest s u r).1 := by
  have hfresh : s.requestCounter + 1 ∉ engineSinks s := by
    intro hmem
    exact absurd (h.sinksBound _ hmem) (by omega)
  have hsplit := List.nodup_append.mp h.sinksNodup
  have hfreshP : s.requestCounter + 1 ∉ s.pending.map Prod.snd :=
    fun hmem => hfresh (List.mem_append_left _ hmem)
  have hfreshF : s.requestCounter + 1 ∉ s.fulfilled.map Prod.fst :=
    fun hmem => hfresh (List.mem_append_right _ hmem)
  refine ⟨fst_insertAssoc_nodup h.keysNodup, ?_, ?_⟩
  · show ((insertAssoc s.pending
        (requestIdFor (s.requestCounter + 1) u) (s.requestCounter + 1)).map
          Prod.snd ++ s.fulfilled.map Prod.fst).Nodup
    rw [List.nodup_append]
    refine ⟨snd_insertAssoc_nodup hsplit.1 hfreshP, hsplit.2.1, ?_⟩
    intro n hn hn2
    rcases mem_snd_insertAssoc hn with h2 | h2
    · exact hfreshF (h2 ▸ hn2)
    · exact hsplit.2.2 h2 hn2
  · intro n hn
    show n ≤ s.requestCounter + 1
    rcases List.mem_append.mp hn with h2 | h2
    · rcases mem_snd_insertAssoc h2 with h3 | h3
      · omega
      · have := h.sinksBound n (List.mem_append_left _ h3)
        omega
    · have := h.sinksBound n (List.mem_append_right _ h2)
      omega

theorem engineInv_dispatch (s : EngineState) (m : Json) (h : EngineInv s) :
    EngineInv (dispatchControlResponse s m) := by
  cases hresp : m.get? "response" with
  | none => simpa only [dispatchControlResponse, hresp] using h
  | some response =>
    cases hrid : (response.get? "request_id").bind Json.asStr? with
    | none => simpa only [dispatchControlResponse, hresp, hrid] using h
    | some rid =>
      cases hl : lookupAssoc s.pending rid with
      | none => simpa only [dispatchControlResponse, hresp, hrid, hl] using h
      | some sink =>
        simp only [dispatchControlResponse, hresp, hrid, hl]
        have hperm : (s.pending.map Prod.snd).Perm
            (sink :: (removeAssoc s.pending rid).map Prod.snd) :=
          (perm_removeAssoc hl).map Prod.snd
        have hnew : ((removeAssoc s.pending rid).map Prod.snd
            ++ (s.fulfilled ++ [(sink, response)]).map Prod.fst).Perm
              (engineSinks s) := by
          have h1 : (removeAssoc s.pending rid).map Prod.snd
              ++ (s.fulfilled ++ [(sink, response)]).map Prod.fst
              = ((removeAssoc s.pending rid).map Prod.snd
                ++ s.fulfilled.map Prod.fst) ++ [sink] := by
            simp
          have h2 : (((removeAssoc s.pending rid).map Prod.snd
              ++ s.fulfilled.map Prod.fst) ++ [sink]).Perm
                (sink :: ((removeAssoc s.pending rid).map Prod.snd
                  ++ s.fulfilled.map Prod.fst)) :=
            List.perm_append_singleton _ _
          have h3 : ((sink :: (removeAssoc s.pending rid).map Prod.snd)
              ++ s.fulfilled.map Prod.fst).Perm
                (s.pending.map Prod.snd ++ s.fulfilled.map Prod.fst) :=
            (hperm.symm).append_right _
          rw [h1]
          exact h2.trans h3
        refine ⟨?_, ?_, ?_⟩
        · exact h.keysNodup.sublist (fst_removeAssoc_sublist s.pending rid)
        · exact hnew.symm.nodup h.sinksNodup
        · intro n hn
          exact h.sinksBound n (hnew.subset hn)

theorem engineInv_inbound (s : EngineState) (m : Json) (h : EngineInv s) :
    EngineInv (engineInboundStep s m) := by
  unfold engineInboundStep
  split
  · exact engineInv_dispatch s m h
  · exact h

theorem engineInv_run (s : EngineState) (steps : List EngineStep)
    (h : EngineInv s) : EngineInv (engineRun s steps) := by
  induction steps generalizing s with
  | nil => exact h
  | cons st rest ih =>
    cases st with
    | issue u r => exact ih _ (engineInv_issue s u r h)
    | inbound m => exact ih _ (engineInv_inbound s m h)

theorem engineInv_engineInit : EngineInv engineInit :=
  ⟨List.nodup_nil, List.nodup_nil, fun n hn => absurd hn (List.not_mem_nil n)⟩

end AgentKit

namespace AgentKit

/-! ## Claims C1 and C4: pending-request table and one-shot sinks -/

/-- The `interrupt` request body (`Query::interrupt`). -/
def interruptRequestJson : Json := Json.mkObj [("subtype", .str "interrupt")]

/-- C1 counterexample: issue one `interrupt` control request from the
initial engine state and let the 60-second await expire.  The request ID
`req_1_u` is still mapped in the pending-request table at the moment
`Timeout(subtype)` is surfaced: `send_control_request` does not remove the
entry on timeout, contrary to the claim. -/
theorem pending_entry_remains_on_timeout_cex :
    lookupAssoc ((awaitControlResponse
        (issueControlRequest engineInit "u" interruptRequestJson).1
        interruptRequestJson .timedOut).1).pending "req_1_u" = some 1 ∧
    (awaitControlResponse
        (issueControlRequest engineInit "u" interruptRequestJson).1
        interruptRequestJson .timedOut).2 =
      .error (.timeout "Control request timeout: Some(String(\"interrupt\"))") :=
  ⟨rfl, rfl⟩

/-- C1 amended: the pending-request entry is inserted when the request is
issued, but on timeout it is NOT removed — the await leaves the whole state
unchanged, the request ID is still mapped to its sink, and
`Timeout(subtype)` is surfaced with the entry still present.  An entry is
removed (together with its unique fulfilment) only when a matching
`control_response` arrives and the reader task takes the sender out of the
table. -/
theorem pending_entry_lifecycle_amended :
    (∀ (s : EngineState) (u : String) (req : Json),
      (awaitControlResponse (issueControlRequest s u req).1 req .timedOut).1
          = (issueControlRequest s u req).1 ∧
      lookupAssoc
          ((awaitControlResponse (issueControlRequest s u req).1 req
            .timedOut).1).pending (issueControlRequest s u req).2.1 =
        some (issueControlRequest s u req).2.2 ∧
      (awaitControlResponse (issueControlRequest s u req).1 req .timedOut).2 =
        .error (.timeout ("Control request timeout: "
          ++ rustDebugOptJson (req.get? "subtype")))) ∧
    (∀ (s : EngineState) (rid : String) (sink : Nat) (response : Json),
      (s.pending.map Prod.fst).Nodup →
      lookupAssoc s.pending rid = some sink →
      (response.get? "request_id").bind Json.asStr? = some rid →
      ∀ m : Json, m.get? "response" = some response →
        lookupAssoc (dispatchControlResponse s m).pending rid = none ∧
        (dispatchControlResponse s m).fulfilled
          = s.fulfilled ++ [(sink, response)]) := by
  constructor
  · intro s u req
    refine ⟨rfl, ?_, rfl⟩
    exact lookupAssoc_insertAssoc_self _ _ _
  · intro s rid sink response hnodup hl hrid m hm
    constructor
    · simp only [dispatchControlResponse, hm, hrid, hl]
      exact lookupAssoc_removeAssoc_self hnodup
    · simp only [dispatchControlResponse, hm, hrid, hl]

/-- A state with one pending request, used to witness the response path. -/
def onePendingState : EngineState := ⟨7, [("r", 5)], [], []⟩

/-- A `control_response` payload for request ID `r`. -/
def responsePayloadR : Json := Json.mkObj [("request_id", .str "r")]

/-- The inbound envelope carrying `responsePayloadR`. -/
def responseEnvelopeR : Json :=
  Json.mkObj [("response", responsePayloadR), ("type", .str "control_response")]

/-- Witness for `pending_entry_lifecycle_amended` at concrete inputs. -/
theorem pending_entry_lifecycle_amended_witness :
    ((awaitControlResponse
        (issueControlRequest engineInit "u" interruptRequestJson).1
        interruptRequestJson .timedOut).1
      = (issueControlRequest engineInit "u" interruptRequestJson).1 ∧
     lookupAssoc ((awaitControlResponse
        (issueControlRequest engineInit "u" interruptRequestJson).1
        interruptRequestJson .timedOut).1).pending
        (issueControlRequest engineInit "u" interruptRequestJson).2.1 =
       some (issueControlRequest engineInit "u" interruptRequestJson).2.2 ∧
     (awaitControlResponse
        (issueControlRequest engineInit "u" interruptRequestJson).1
        interruptRequestJson .timedOut).2 =
       .error (.timeout ("Control request timeout: "
         ++ rustDebugOptJson (interruptRequestJson.get? "subtype")))) ∧
    (lookupAssoc (dispatchControlResponse onePendingState
        responseEnvelopeR).pending "r" = none ∧
     (dispatchControlResponse onePendingState responseEnvelopeR).fulfilled
       = onePendingState.fulfilled ++ [(5, responsePayloadR)]) :=
  ⟨pending_entry_lifecycle_amended.1 engineInit "u" interruptRequestJson,
    pending_entry_lifecycle_amended.2 onePendingState "r" 5 responsePayloadR
      (by decide) rfl rfl responseEnvelopeR
      (by simp [responseEnvelopeR, Json.get?_mkObj, Json.lookupList])⟩

/-- C4: across any interleaving of issued control requests and inbound
messages, each one-shot completion sink is fulfilled at most once — the
record of `tx.send` events never repeats a sink (a second `control_response`
with the same `request_id` finds the table entry already gone).  Moreover
the awaiting half of `send_control_request` fulfills nothing itself and
leaves the engine state untouched on response, timeout, and channel closure
(shutdown) alike. -/
theorem one_shot_sink_fulfilled_at_most_once (steps : List EngineStep) :
    ((engineRun engineInit steps).fulfilled.map Prod.fst).Nodup ∧
    ∀ (s : EngineState) (request : Json) (outcome : AwaitOutcome),
      (awaitControlResponse s request outcome).1 = s := by
  constructor
  · have hinv := engineInv_run engineInit steps engineInv_engineInit
    have hs := hinv.sinksNodup
    rw [engineSinks, List.nodup_append] at hs
    exact hs.2.1
  · intro s request outcome
    unfold awaitControlResponse
    split <;> (try split) <;> rfl

end AgentKit

namespace AgentKit

/-! ## Permission round-trips (claims C3, C5, C7)

The `websocket` crate resolves `can_use_tool` requests by round-tripping to
the peer: `Query::handle_permission_request` (agent-sdk) invokes
`PermissionHandlerAdapter::can_use` (websocket), which calls the
`permission_handler` closure registered in `handle_socket` (server.rs).  The
closure sends the request to the select loop and awaits a oneshot reply for
at most 300 seconds. -/

/-- `PermissionResponse` (`src/websocket/src/session/query/mod.rs`). -/
inductive PermissionResponse where
  | allow
  | deny
  | allowAlways
deriving Repr, DecidableEq

/-- `Decision` (`src/websocket/src/protocol/common.rs`). -/
inductive Decision where
  | allow
  | deny
  | allowAlways
deriving Repr, DecidableEq

/-- The `Decision → PermissionResponse` mapping of the select loops
(server.rs lines 374-385 and 807-817). -/
def decisionToResponse : Decision → PermissionResponse
  | .allow => .allow
  | .deny => .deny
  | .allowAlways => .allowAlways

/-- The deadline of `tokio::time::timeout` in the permission handler
(server.rs line 171): 300 seconds. -/
def permissionReplyTimeoutSecs : Nat := 300

/-- How the await of the oneshot reply can end. -/
inductive PeerAwait where
  | reply (r : PermissionResponse)
  | channelClosed
  | timedOut

/-- `tokio::time::timeout(300s, resp_rx)` against an abstract peer that
either replies at time `t` or drops the channel: a reply arriving at or
after the deadline is seen as a timeout. -/
def peerAwaitOf : Option (Nat × PermissionResponse) → PeerAwait
  | some (t, r) =>
    if t < permissionReplyTimeoutSecs then .reply r else .timedOut
  | none => .channelClosed

/-- The `permission_handler` closure (server.rs lines 160-177): a failed
send to the main loop resolves `Deny`; otherwise `Ok(Ok(r))` resolves `r`,
`Ok(Err(_))` (channel closed) resolves `Deny`, and `Err(_)` (timeout)
resolves `Deny`. -/
def permissionHandlerResolve (sendFailed : Bool) (a : PeerAwait) :
    PermissionResponse :=
  if sendFailed then .deny
  else
    match a with
    | .reply r => r
    | .channelClosed => .deny
    | .timedOut => .deny

/-- Modelled from the spec: `src/agent-sdk/src/types/permissions.rs` is not
under `src/` (only re-exported by `types/mod.rs`).  §4.4 names the rule
destination `session`. -/
inductive PermissionUpdateDestination where
  | session
deriving Repr, DecidableEq

/-- Modelled from the spec: `types/permissions.rs` is missing; §4.4 gives
the rule behavior `allow`. -/
inductive PermissionBehavior where
  | allow
  | deny
deriving Repr, DecidableEq

/-- Modelled from the spec: `types/permissions.rs` is missing; a permission
rule names a tool (§4.4, §8 scenario 3). -/
structure PermissionRuleValue where
  toolName : String
  ruleContent : Option String
deriving Repr, DecidableEq

/-- Modelled from the spec: `types/permissions.rs` is missing; the adapter
builds `PermissionUpdate::AddRules` with rules, behavior and destination. -/
inductive PermissionUpdate where
  | addRules (rules : Option (List PermissionRuleValue))
      (behavior : Option PermissionBehavior)
      (destination : Option PermissionUpdateDestination)
deriving Repr, DecidableEq

/-- Modelled from the spec: serialization of one added rule, per §8
scenario 3: `{"tool_name":…,"behavior":"allow","destination":"session"}`. -/
def serializePermissionUpdate : PermissionUpdate → Json
  | .addRules rules behavior destination =>
    Json.mkObj
      ((match rules with
        | some (r :: _) => [("tool_name", .str r.toolName)]
        | _ => [])
      ++ (match behavior with
        | some .allow => [("behavior", .str "allow")]
        | some .deny => [("behavior", .str "deny")]
        | none => [])
      ++ (match destination with
        | some .session => [("destination", .str "session")]
        | none => []))

/-- Modelled from the spec: `PermissionResultAllow` of the missing
`types/permissions.rs`, with the fields the adapter constructs. -/
structure PermissionResultAllow where
  behavior : String
  updatedInput : Option Json
  updatedPermissions : Option (List PermissionUpdate)

/-- Modelled from the spec: the default allow result — behavior `allow`, no
updated input, empty updated-permissions list, so that `updatedPermissions`
serializes as `[]` (§4.4: Allow → `{behavior:"allow", updatedInput:
original_input, updatedPermissions: []}`). -/
def permissionResultAllowDefault : PermissionResultAllow :=
  ⟨"allow", none, some []⟩

/-- Modelled from the spec: `PermissionResultDeny` of the missing
`types/permissions.rs`. -/
structure PermissionResultDeny where
  behavior : String
  message : String
  interrupt : Bool
deriving Repr, DecidableEq

/-- Modelled from the spec: the default deny result — behavior `deny`,
empty message, `interrupt: false` (§4.4: Deny → `{behavior:"deny", message,
interrupt: false}`). -/
def permissionResultDenyDefault : PermissionResultDeny :=
  ⟨"deny", "", false⟩

/-- `PermissionResult` (allow-or-deny union), as used by the sources. -/
inductive PermissionResult where
  | allow (a : PermissionResultAllow)
  | deny (d : PermissionResultDeny)

/-- `PermissionHandlerAdapter::can_use`
(`src/websocket/src/session/query/session.rs` lines 24-67): map the peer
decision to a `PermissionResult`; `AllowAlways` adds one session-scoped
allow rule for the tool. -/
def adapterCanUse (toolName : String) (response : PermissionResponse) :
    PermissionResult :=
  match response with
  | .allow => .allow permissionResultAllowDefault
  | .allowAlways =>
    .allow ⟨"allow", none,
      some [.addRules (some [⟨toolName, none⟩]) (some .allow)
        (some .session)]⟩
  | .deny => .deny permissionResultDenyDefault

/-- The reply JSON built by `Query::handle_permission_request`
(`src/agent-sdk/src/internal/query.rs` lines 202-241): allow replies carry
`updatedInput` (falling back to the original input) and
`updatedPermissions`; deny replies carry `message` and `interrupt`. -/
def permissionResponseJson (input : Json) : PermissionResult → Json
  | .allow a =>
    Json.mkObj [("behavior", .str "allow"),
      ("updatedInput", a.updatedInput.getD input),
      ("updatedPermissions",
        match a.updatedPermissions with
        | some us => .arr (us.map serializePermissionUpdate)
        | none => .null)]
  | .deny d =>
    Json.mkObj [("behavior", .str "deny"), ("message", .str d.message),
      ("interrupt", .bool d.interrupt)]

/-- The success envelope written back to the CLI by
`Query::handle_control_request` (query.rs lines 184-197). -/
def controlSuccessEnvelope (requestId : String) (responseData : Json) : Json :=
  Json.mkObj [("type", .str "control_response"),
    ("response", Json.mkObj [("subtype", .str "success"),
      ("request_id", .str requestId), ("response", responseData)])]

/-- C3: for every `can_use_tool` request with original input `I`, the reply
has exactly the canonical shape: `Allow` → `{behavior:"allow",
updatedInput: I, updatedPermissions: []}`; `AllowAlways` → the same with one
rule `{tool_name, behavior:"allow", destination:"session"}`; `Deny` →
`{behavior:"deny", message, interrupt: false}`; and the CLI-bound envelope
wraps the reply under `subtype:"success"` with the original request ID.
(Objects are shown in their canonical key-sorted form.) -/
theorem permission_reply_canonical_shape (toolName : String) (input : Json)
    (requestId : String) (responseData : Json) :
    permissionResponseJson input (adapterCanUse toolName .allow)
      = .obj [("behavior", .str "allow"), ("updatedInput", input),
          ("updatedPermissions", .arr [])] ∧
    permissionResponseJson input (adapterCanUse toolName .allowAlways)
      = .obj [("behavior", .str "allow"), ("updatedInput", input),
          ("updatedPermissions", .arr [.obj [("behavior", .str "allow"),
            ("destination", .str "session"),
            ("tool_name", .str toolName)]])] ∧
    permissionResponseJson input (adapterCanUse toolName .deny)
      = .obj [("behavior", .str "deny"), ("interrupt", .bool false),
          ("message", .str "")] ∧
    controlSuccessEnvelope requestId responseData
      = .obj [("response", .obj [("request_id", .str requestId),
          ("response", responseData), ("subtype", .str "success")]),
          ("type", .str "control_response")] := by
  refine ⟨?_, ?_, ?_, ?_⟩ <;>
    simp +decide [adapterCanUse, permissionResponseJson,
      permissionResultAllowDefault, permissionResultDenyDefault,
      serializePermissionUpdate, controlSuccessEnvelope, Json.mkObj,
      Json.insertKey]

/-- C7: the permission handler resolves `Deny` when the peer reply arrives
only at or after the 300-second deadline, when the reply channel is closed,
and when the send to the main loop fails; a decision that arrives in time
is resolved as itself. -/
theorem permission_timeout_resolves_deny :
    permissionReplyTimeoutSecs = 300 ∧
    (∀ (t : Nat) (r : PermissionResponse), 300 ≤ t →
      permissionHandlerResolve false (peerAwaitOf (some (t, r))) = .deny) ∧
    permissionHandlerResolve false (peerAwaitOf none) = .deny ∧
    (∀ b : Bool, permissionHandlerResolve b .timedOut = .deny ∧
      permissionHandlerResolve b .channelClosed = .deny) ∧
    (∀ (t : Nat) (d : Decision), t < 300 →
      permissionHandlerResolve false (peerAwaitOf
        (some (t, decisionToResponse d))) = decisionToResponse d) := by
  refine ⟨rfl, ?_, rfl, ?_, ?_⟩
  · intro t r ht
    simp [peerAwaitOf, permissionHandlerResolve, permissionReplyTimeoutSecs,
      Nat.not_lt.mpr ht]
  · intro b
    cases b <;> exact ⟨rfl, rfl⟩
  · intro t d ht
    simp [peerAwaitOf, permissionHandlerResolve, permissionReplyTimeoutSecs,
      ht]

/-- Witness for `permission_timeout_resolves_deny` at concrete inputs: a
reply arriving exactly at the deadline is a `Deny`; an `allow_always`
decision arriving at once is honored. -/
theorem permission_timeout_resolves_deny_witness :
    permissionHandlerResolve false (peerAwaitOf (some (300, .allow)))
      = .deny ∧
    permissionHandlerResolve false (peerAwaitOf
      (some (0, decisionToResponse .allowAlways)))
      = decisionToResponse .allowAlways :=
  ⟨permission_timeout_resolves_deny.2.1 300 .allow (le_refl 300),
    permission_timeout_resolves_deny.2.2.2.2 0 .allowAlways
      (by decide)⟩

end AgentKit

namespace AgentKit

/-! ## Claim C5: a second pending permission round-trip -/

/-- Serialization of `ControlRequestMessage`
(`src/websocket/src/protocol/events.rs` lines 49-62) as built by the select
loops: `type` is `permission_request`, `agentType` is `claude`, the context
is the fixed description with medium risk. -/
def controlRequestMessageJson (sessionId toolName : String)
    (toolUseId : Option String) (input : Json) : Json :=
  Json.mkObj ([("type", .str "permission_request"), ("id", .str sessionId),
      ("agentType", .str "claude"), ("toolName", .str toolName)]
    ++ optField "toolUseId" (toolUseId.map Json.str)
    ++ [("input", input),
      ("context", Json.mkObj [("description", .str "Tool permission request"),
        ("risk_level", .str "medium")])])

/-- The permission-request arm of the select loops (server.rs lines 406-427
and 778-799): the fresh oneshot sender is stored in the slot
unconditionally — `*pending = Some(resp_tx)` — displacing whatever sender
was there, and a `permission_request` event is sent to the peer.  Returns
the new slot, the displaced sender (dropped without any reply), and the
emitted event. -/
def permissionArmStep (sessionId : String) (pending : Option Nat)
    (freshSender : Nat) (toolName : String) (toolUseId : Option String)
    (input : Json) : Option Nat × Option Nat × Json :=
  (some freshSender, pending,
    controlRequestMessageJson sessionId toolName toolUseId input)

/-- A concrete `can_use_tool` input. -/
def bashLsInput : Json := Json.mkObj [("cmd", .str "ls")]

/-- C5 counterexample: with round-trip sender `0` still pending, a second
`can_use_tool` request is accepted — the slot now holds the new sender `1`,
the old sender is displaced, and the event sent to the peer is an ordinary
`permission_request`, not an error. -/
theorem second_permission_request_accepted_cex :
    (permissionArmStep "S1" (some 0) 1 "Bash" none bashLsInput).1 = some 1 ∧
    (permissionArmStep "S1" (some 0) 1 "Bash" none bashLsInput).2.1
      = some 0 ∧
    (permissionArmStep "S1" (some 0) 1 "Bash" none
        bashLsInput).2.2.get? "type" = some (.str "permission_request") := by
  refine ⟨rfl, rfl, ?_⟩
  simp +decide [permissionArmStep, controlRequestMessageJson, optField,
    bashLsInput, Json.mkObj, Json.insertKey, Json.get?, Json.lookupList]

/-- C5 amended: the slot can hold at most one sender (it is an `Option`),
but a `can_use_tool` arriving while one round-trip is pending is NOT
answered with an error: it is accepted, its sender silently replaces the
pending one, and the peer is sent a fresh `permission_request`.  The
displaced round-trip sees its channel closed and resolves as `Deny`. -/
theorem second_permission_request_replaces_amended (sessionId : String)
    (pending : Option Nat) (freshSender : Nat) (toolName : String)
    (toolUseId : Option String) (input : Json) :
    (permissionArmStep sessionId pending freshSender toolName toolUseId
        input).1 = some freshSender ∧
    (permissionArmStep sessionId pending freshSender toolName toolUseId
        input).2.1 = pending ∧
    (permissionArmStep sessionId pending freshSender toolName toolUseId
        input).2.2.get? "type" = some (.str "permission_request") ∧
    (permissionArmStep sessionId pending freshSender toolName toolUseId
        input).2.2.get? "id" = some (.str sessionId) ∧
    permissionHandlerResolve false .channelClosed = .deny := by
  refine ⟨rfl, rfl, ?_, ?_, rfl⟩ <;>
    cases toolUseId <;>
      simp +decide [permissionArmStep, controlRequestMessageJson, optField,
        Json.mkObj, Json.insertKey, Json.get?, Json.lookupList]

end AgentKit

namespace AgentKit

/-! ## Claim C6: unknown message types and the message stream -/

/-- The stream body of `ClaudeClient::receive_messages`
(`src/agent-sdk/src/client.rs` lines 341-351): each received value is fed
through `parse_message`; an `Ok` is yielded and the loop continues, an
`Err` is yielded and the loop BREAKS. -/
def receiveMessagesStream : List Json → List (Except SdkError Message)
  | [] => []
  | data :: rest =>
    match parseMessage data with
    | .ok message => .ok message :: receiveMessagesStream rest
    | .error e => [.error e]

/-- An inbound line with a `type` outside the enumerated set. -/
def bogusTypeLine : Json := .obj [("type", .str "bogus")]

/-- A well-formed user line following it. -/
def goodUserLine : Json :=
  .obj [("message", .obj [("content", .str "hi")]), ("type", .str "user")]

/-- C6 counterexample: a line with `type:"bogus"` yields a `MessageParse`
error — but the error terminates the message stream of
`receive_messages`: the well-formed user message behind it is never
delivered (alone it would have been). -/
theorem parse_error_ends_stream_cex :
    parseMessage bogusTypeLine
      = .error (.messageParse "Unknown message type: bogus") ∧
    receiveMessagesStream [bogusTypeLine, goodUserLine]
      = [.error (.messageParse "Unknown message type: bogus")] ∧
    receiveMessagesStream [goodUserLine]
      = [.ok (.user ⟨.string "hi", none, none⟩)] :=
  ⟨rfl, rfl, rfl⟩

/-- C6 amended: a `type` outside {user, assistant, system, result,
stream_event} yields `MessageParse("Unknown message type: …")`, but the
error is not skipped: `receive_messages` yields it to the consumer and the
stream then terminates, so no subsequent message is delivered — the error
is fatal to that session's message stream. -/
theorem message_parse_error_fatal_amended :
    (∀ (kvs : List (String × Json)) (t : String),
      (Json.obj kvs).get? "type" = some (.str t) →
      t ≠ "user" → t ≠ "assistant" → t ≠ "system" → t ≠ "result" →
      t ≠ "stream_event" →
      parseMessage (.obj kvs)
        = .error (.messageParse ("Unknown message type: " ++ t))) ∧
    (∀ (data : Json) (e : SdkError) (rest : List Json),
      parseMessage data = .error e →
      receiveMessagesStream (data :: rest) = [.error e]) := by
  constructor
  · intro kvs t hget hu ha hs hr hst
    have hbind : ((Json.obj kvs).get? "type").bind Json.asStr? = some t := by
      rw [hget]
      rfl
    simp only [parseMessage, Json.asObjJson?, hbind]
  · intro data e rest hp
    simp [receiveMessagesStream, hp]

/-- Witness for `message_parse_error_fatal_amended` at the concrete bogus
line followed by a good user line. -/
theorem message_parse_error_fatal_amended_witness :
    parseMessage (.obj [("type", .str "bogus")])
      = .error (.messageParse ("Unknown message type: " ++ "bogus")) ∧
    receiveMessagesStream [bogusTypeLine, goodUserLine]
      = [.error (.messageParse "Unknown message type: bogus")] :=
  ⟨message_parse_error_fatal_amended.1 [("type", .str "bogus")] "bogus" rfl
      (by decide) (by decide) (by decide) (by decide) (by decide),
    message_parse_error_fatal_amended.2 bogusTypeLine
      (.messageParse "Unknown message type: bogus") [goodUserLine] rfl⟩

end AgentKit

namespace AgentKit

/-! ## Claim C10: session-init bootstrap order -/

/-- `InputMessage` (`src/agent-sdk/src/types/messages.rs` lines 127-152). -/
structure InputMessage where
  type : String
  message : Json
  parentToolUseId : Option String
  sessionId : String
deriving Repr

/-- `InputMessage::user`: type `user`, role/content body, no parent tool
use, the given session ID. -/
def InputMessage.user (content sessionId : String) : InputMessage :=
  ⟨"user", Json.mkObj [("role", .str "user"), ("content", .str content)],
    none, sessionId⟩

/-- Modelled from the spec: `ProtocolMessage` (§3) is re-exported by the
agent-sdk crate but its defining module is not under `src/`.  Only the
parts the bridge reads are structured: `System{subtype, extra}` and
`Result{is_error, errors, result}`; other variants carry their raw
value. -/
inductive ProtocolMessage where
  | user (raw : Json)
  | assistant (raw : Json)
  | system (subtype : String) (extra : Json)
  | result (subtype : String) (isError : Bool) (errors : List String)
      (result : Option String)
  | stream (raw : Json)
  | controlRequest (raw : Json)
  | controlResponse (raw : Json)
deriving Repr

/-- `PluginInfo` (`src/websocket/src/protocol/events.rs`). -/
structure PluginInfo where
  name : String
  path : String
deriving Repr, DecidableEq

/-- `SessionInitData` (`src/websocket/src/protocol/events.rs` lines
561-596). -/
structure SessionInitData where
  cwd : Option String
  model : Option String
  tools : List String
  mcpServers : List String
  permissionMode : Option String
  slashCommands : List String
  apiKeySource : Option String
  claudeCodeVersion : Option String
  outputStyle : Option String
  agents : List String
  skills : List String
  plugins : List PluginInfo
  uuid : Option String
deriving Repr

/-- The `get_string` closure of `wait_for_session_init`. -/
def initGetString (extra : Json) (key : String) : Option String :=
  (extra.get? key).bind Json.asStr?

/-- The `get_string_array` closure of `wait_for_session_init`. -/
def initGetStringArray (extra : Json) (key : String) : List String :=
  (((extra.get? key).bind Json.asArr?).map
    (fun arr => arr.filterMap Json.asStr?)).getD []

/-- The plugin extraction of `wait_for_session_init`. -/
def initGetPlugins (extra : Json) : List PluginInfo :=
  (((extra.get? "plugins").bind Json.asArr?).map
    (fun arr => arr.filterMap (fun p => do
      let name ← (p.get? "name").bind Json.asStr?
      let path ← (p.get? "path").bind Json.asStr?
      pure (⟨name, path⟩ : PluginInfo)))).getD []

/-- The `SessionInitData` captured from a `System{init}`
(`src/websocket/src/server.rs` lines 904-940). -/
def extractSessionInitData (extra : Json) : SessionInitData :=
  ⟨initGetString extra "cwd", initGetString extra "model",
    initGetStringArray extra "tools", initGetStringArray extra "mcp_servers",
    initGetString extra "permissionMode",
    initGetStringArray extra "slash_commands",
    initGetString extra "apiKeySource",
    initGetString extra "claude_code_version",
    initGetString extra "output_style", initGetStringArray extra "agents",
    initGetStringArray extra "skills", initGetPlugins extra,
    initGetString extra "uuid"⟩

/-- The scan over the subscribed protocol-message stream
(server.rs lines 880-962): the first `System{init}` resolves with the
session ID from its extra map (falling back to the provisional one) and the
captured init data; an error `Result` fails with its joined errors (or its
`result` text); everything else is skipped; stream end fails. -/
def scanForInit (provisionalId : String) :
    List ProtocolMessage → Except String (String × SessionInitData)
  | [] => .error "Stream ended unexpectedly"
  | msg :: rest =>
    match msg with
    | .system subtype extra =>
      if subtype = "init" then
        .ok (((extra.get? "session_id").bind Json.asStr?).getD provisionalId,
          extractSessionInitData extra)
      else scanForInit provisionalId rest
    | .result _ isError errors result =>
      if isError then
        .error (if errors ≠ [] then String.intercalate "; " errors
          else result.getD "Unknown error")
      else scanForInit provisionalId rest
    | _ => scanForInit provisionalId rest

/-- The CLI-side actions `wait_for_session_init` performs, in order. -/
inductive CliAction where
  | writeInput (m : InputMessage)
  | interrupt
  | subscribe
deriving Repr

/-- `wait_for_session_init` for a new (non-resume) session
(server.rs lines 846-962): send an empty user message with the provisional
session ID, immediately send an `interrupt` control request, subscribe to
protocol messages, and only then scan the stream for `System{init}`. -/
def waitForSessionInit (provisionalId : String)
    (stream : List ProtocolMessage) :
    List CliAction × Except String (String × SessionInitData) :=
  ([.writeInput (InputMessage.user "" provisionalId), .interrupt,
    .subscribe], scanForInit provisionalId stream)

/-- C10: for a new session the bridge first writes a user message with
empty-string content and the provisional session ID, then issues the
interrupt control request, and only afterwards subscribes and scans the
stream for `System{init}`; the scan skips other messages and resolves on
the first init. -/
theorem session_bootstrap_action_order (provisionalId : String)
    (stream : List ProtocolMessage) (extra raw : Json)
    (rest : List ProtocolMessage) :
    (waitForSessionInit provisionalId stream).1
      = [.writeInput ⟨"user",
          Json.mkObj [("role", .str "user"), ("content", .str "")], none,
          provisionalId⟩, .interrupt, .subscribe] ∧
    (waitForSessionInit provisionalId stream).2
      = scanForInit provisionalId stream ∧
    scanForInit provisionalId (.system "init" extra :: rest)
      = .ok (((extra.get? "session_id").bind Json.asStr?).getD provisionalId,
          extractSessionInitData extra) ∧
    scanForInit provisionalId (.assistant raw :: rest)
      = scanForInit provisionalId rest ∧
    scanForInit provisionalId (.system "status" extra :: rest)
      = scanForInit provisionalId rest := by
  refine ⟨rfl, rfl, by simp [scanForInit], rfl, by simp [scanForInit]⟩

end AgentKit

namespace AgentKit

/-! ## Text layer for the WebSocket init handshake (claims C8, C9)

`wait_for_init_message` receives raw WebSocket frames.  Text payloads are
parsed with `serde_json::from_str::<ClientMessage>`; binary payloads are
first decoded as UTF-8 (`String::from_utf8`).  Both layers are embedded
executably: a UTF-8 decoder over byte lists and a JSON text parser. -/

/-- UTF-8 decoding (`String::from_utf8`): strict, rejecting continuation
errors, overlong encodings, surrogates and out-of-range code points. -/
def utf8DecodeChars : List Nat → Option (List Char)
  | [] => some []
  | b :: rest =>
    if b < 0x80 then
      (utf8DecodeChars rest).map (fun cs => Char.ofNat b :: cs)
    else if 0xC0 ≤ b ∧ b < 0xE0 then
      match rest with
      | b1 :: rest1 =>
        if 0x80 ≤ b1 ∧ b1 < 0xC0 then
          let cp := (b - 0xC0) * 0x40 + (b1 - 0x80)
          if 0x80 ≤ cp then
            (utf8DecodeChars rest1).map (fun cs => Char.ofNat cp :: cs)
          else none
        else none
      | [] => none
    else if 0xE0 ≤ b ∧ b < 0xF0 then
      match rest with
      | b1 :: b2 :: rest2 =>
        if (0x80 ≤ b1 ∧ b1 < 0xC0) ∧ (0x80 ≤ b2 ∧ b2 < 0xC0) then
          let cp := (b - 0xE0) * 0x1000 + (b1 - 0x80) * 0x40 + (b2 - 0x80)
          if 0x800 ≤ cp ∧ ¬(0xD800 ≤ cp ∧ cp < 0xE000) then
            (utf8DecodeChars rest2).map (fun cs => Char.ofNat cp :: cs)
          else none
        else none
      | _ => none
    else if 0xF0 ≤ b ∧ b < 0xF8 then
      match rest with
      | b1 :: b2 :: b3 :: rest3 =>
        if (0x80 ≤ b1 ∧ b1 < 0xC0) ∧ (0x80 ≤ b2 ∧ b2 < 0xC0)
            ∧ (0x80 ≤ b3 ∧ b3 < 0xC0) then
          let cp := (b - 0xF0) * 0x40000 + (b1 - 0x80) * 0x1000
            + (b2 - 0x80) * 0x40 + (b3 - 0x80)
          if 0x10000 ≤ cp ∧ cp < 0x110000 then
            (utf8DecodeChars rest3).map (fun cs => Char.ofNat cp :: cs)
          else none
        else none
      | _ => none
    else none

/-- `String::from_utf8` on a byte vector. -/
def utf8Decode? (bytes : List Nat) : Option String :=
  (utf8DecodeChars bytes).map String.mk

/-- JSON whitespace skipping. -/
def skipWs : List Char → List Char
  | [] => []
  | c :: rest =>
    if c = ' ' ∨ c = '\t' ∨ c = '\n' ∨ c = '\r' then skipWs rest
    else c :: rest

/-- ASCII digit test. -/
def isDigitChar (c : Char) : Bool := '0' ≤ c ∧ c ≤ '9'

/-- Digits to a natural number. -/
def digitsToNat (ds : List Char) : Nat :=
  ds.foldl (fun acc c => acc * 10 + (c.toNat - 48)) 0

/-- Hexadecimal digit value. -/
def hexVal (c : Char) : Option Nat :=
  if isDigitChar c then some (c.toNat - 48)
  else if 'a' ≤ c ∧ c ≤ 'f' then some (c.toNat - 87)
  else if 'A' ≤ c ∧ c ≤ 'F' then some (c.toNat - 55)
  else none

/-- JSON string body after the opening quote; fuel bounds the length. -/
def parseStringChars : Nat → List Char → Option (List Char × List Char)
  | 0, _ => none
  | _, [] => none
  | fuel + 1, c :: rest =>
    if c = '"' then some ([], rest)
    else if c = '\\' then
      match rest with
      | [] => none
      | e :: rest2 =>
        let dec : Option (Char × List Char) :=
          if e = '"' then some ('"', rest2)
          else if e = '\\' then some ('\\', rest2)
          else if e = '/' then some ('/', rest2)
          else if e = 'n' then some ('\n', rest2)
          else if e = 't' then some ('\t', rest2)
          else if e = 'r' then some ('\r', rest2)
          else if e = 'b' then some (Char.ofNat 8, rest2)
          else if e = 'f' then some (Char.ofNat 12, rest2)
          else if e = 'u' then
            match rest2 with
            | h1 :: h2 :: h3 :: h4 :: rest3 =>
              match hexVal h1, hexVal h2, hexVal h3, hexVal h4 with
              | some v1, some v2, some v3, some v4 =>
                some (Char.ofNat (v1 * 4096 + v2 * 256 + v3 * 16 + v4), rest3)
              | _, _, _, _ => none
            | _ => none
          else none
        match dec with
        | some (ch, restN) =>
          (parseStringChars fuel restN).map (fun p => (ch :: p.1, p.2))
        | none => none
    else (parseStringChars fuel rest).map (fun p => (c :: p.1, p.2))

/-- JSON number (integer part, optional fraction and exponent) as an exact
rational. -/
def parseNumber (cs : List Char) : Option (Rat × List Char) :=
  let (neg, cs1) :=
    match cs with
    | c :: rest => if c = '-' then (true, rest) else (false, cs)
    | [] => (false, ([] : List Char))
  let (ds, cs2) := cs1.span (fun c => isDigitChar c)
  if ds.isEmpty then none
  else
    let mantFrac : Option (Rat × List Char) :=
      match cs2 with
      | '.' :: rest =>
        let (fds, cs3) := rest.span (fun c => isDigitChar c)
        if fds.isEmpty then none
        else some (((digitsToNat ds : Rat)
          + (digitsToNat fds : Rat) / ((10 : Rat) ^ fds.length)), cs3)
      | _ => some ((digitsToNat ds : Rat), cs2)
    match mantFrac with
    | none => none
    | some (mant, cs3) =>
      let withExp : Option (Rat × List Char) :=
        match cs3 with
        | e :: rest =>
          if e = 'e' ∨ e = 'E' then
            let (esign, rest1) :=
              match rest with
              | s :: r2 =>
                if s = '+' then (false, r2)
                else if s = '-' then (true, r2)
                else (false, rest)
              | [] => (false, rest)
            let (eds, cs4) := rest1.span (fun c => isDigitChar c)
            if eds.isEmpty then none
            else
              let ev : Int := if esign then -(digitsToNat eds : Int)
                else (digitsToNat eds : Int)
              some (mant * (10 : Rat) ^ ev, cs4)
          else some (mant, cs3)
        | [] => some (mant, cs3)
      match withExp with
      | none => none
      | some (v, cs5) => some ((if neg then -v else v), cs5)

mutual

/-- One JSON value; fuel bounds the total number of parsed nodes. -/
def parseValueAux : Nat → List Char → Option (Json × List Char)
  | 0, _ => none
  | fuel + 1, cs =>
    match skipWs cs with
    | [] => none
    | c :: rest =>
      if c = '"' then
        (parseStringChars (rest.length + 1) rest).map
          (fun p => (.str (String.mk p.1), p.2))
      else if c = Char.ofNat 123 then
        match skipWs rest with
        | c2 :: rest2 =>
          if c2 = Char.ofNat 125 then some (.obj [], rest2)
          else parseObjectItems fuel (c2 :: rest2) []
        | [] => none
      else if c = '[' then
        match skipWs rest with
        | c2 :: rest2 =>
          if c2 = ']' then some (.arr [], rest2)
          else parseArrayItems fuel (c2 :: rest2) []
        | [] => none
      else if c = 't' then
        match rest with
        | 'r' :: 'u' :: 'e' :: r => some (.bool true, r)
        | _ => none
      else if c = 'f' then
        match rest with
        | 'a' :: 'l' :: 's' :: 'e' :: r => some (.bool false, r)
        | _ => none
      else if c = 'n' then
        match rest with
        | 'u' :: 'l' :: 'l' :: r => some (.null, r)
        | _ => none
      else if c = '-' ∨ isDigitChar c then
        (parseNumber (c :: rest)).map (fun p => (.num p.1, p.2))
      else none

/-- Array elements after `[`, at least one element expected. -/
def parseArrayItems : Nat → List Char → List Json →
    Option (Json × List Char)
  | 0, _, _ => none
  | fuel + 1, cs, acc =>
    match parseValueAux fuel cs with
    | none => none
    | some (v, rest) =>
      match skipWs rest with
      | ',' :: rest2 => parseArrayItems fuel rest2 (acc ++ [v])
      | ']' :: rest2 => some (.arr (acc ++ [v]), rest2)
      | _ => none

/-- Object members after the opening brace, at least one member
expected; keys collapse through `Json.mkObj` as in `serde_json`. -/
def parseObjectItems : Nat → List Char → List (String × Json) →
    Option (Json × List Char)
  | 0, _, _ => none
  | fuel + 1, cs, acc =>
    match skipWs cs with
    | c :: rest =>
      if c = '"' then
        match parseStringChars (rest.length + 1) rest with
        | none => none
        | some (key, rest1) =>
          match skipWs rest1 with
          | ':' :: rest2 =>
            match parseValueAux fuel rest2 with
            | none => none
            | some (v, rest3) =>
              match skipWs rest3 with
              | ',' :: rest4 =>
                parseObjectItems fuel rest4 (acc ++ [(String.mk key, v)])
              | c5 :: rest5 =>
                if c5 = Char.ofNat 125 then
                  some (Json.mkObj (acc ++ [(String.mk key, v)]), rest5)
                else none
              | [] => none
          | _ => none
      else none
    | [] => none

end

/-- `serde_json` text parsing: one value, then only whitespace. -/
def parseJsonText (s : String) : Option Json :=
  match parseValueAux (s.length + 2) s.data with
  | some (v, rest) => if skipWs rest = [] then some v else none
  | none => none

end AgentKit

namespace AgentKit

/-- `PermissionMode` (`src/websocket/src/protocol/common.rs`),
serialized in camelCase. -/
inductive PermissionMode where
  | default
  | acceptEdits
  | bypassPermissions
  | plan
  | delegate
  | dontAsk
deriving Repr, DecidableEq

/-- `ControlSubtype` (`src/websocket/src/protocol/events.rs`). -/
inductive ControlSubtype where
  | interrupt
deriving Repr, DecidableEq

/-- `QuestionAnswer` (`src/websocket/src/protocol/events.rs`). -/
structure QuestionAnswer where
  questionIndex : Nat
  selected : List String
deriving Repr, DecidableEq

/-- `SessionConfig` (`src/websocket/src/protocol/types.rs`): the metadata
map is kept as an association list. -/
structure SessionConfig where
  permissionMode : PermissionMode
  maxTurns : Option Int
  metadata : List (String × String)
deriving Repr, DecidableEq

/-- `WorkspaceInitOptions` (`src/websocket/src/protocol/events.rs`). -/
structure WorkspaceInitOptions where
  cwd : String
  model : Option String
  permissionMode : Option PermissionMode
  disallowedTools : Option (List String)
  maxThinkingTokens : Option Int
  dangerouslySkipPermissions : Option Bool
  resume : Option String
deriving Repr, DecidableEq

/-- `QueryOptions` of the peer protocol
(`src/websocket/src/protocol/events.rs`). -/
structure QueryOptionsMsg where
  cwd : String
  model : Option String
  turnId : Option String
  permissionMode : Option PermissionMode
  maxTurns : Option Int
  resume : Option String
deriving Repr, DecidableEq

/-- `ClientMessage` (`src/websocket/src/protocol/events.rs` lines 239-354),
internally tagged by `type` in snake_case. -/
inductive ClientMessage where
  | userMessage (sessionId : String) (content : String)
      (parentToolUseId : Option String)
  | permissionResponse (id : String) (agentType : String)
      (decision : Decision)
  | userQuestionResponse (sessionId : String) (requestId : String)
      (answers : List QuestionAnswer)
  | planApprovalResponse (sessionId : String) (requestId : String)
      (approved : Bool) (feedback : Option String)
  | sessionStart (sessionId : String) (config : SessionConfig)
  | sessionEnd (sessionId : String)
  | controlRequest (sessionId : String) (requestId : String)
      (subtype : ControlSubtype) (reason : Option String)
  | setPermissionMode (sessionId : String) (mode : PermissionMode)
  | userSessionInit (cwd : String) (model : Option String)
      (permissionMode : Option PermissionMode) (maxTurns : Option Int)
      (maxBudgetUsd : Option Rat) (user : Option String)
      (disallowedTools : Option (List String))
      (maxThinkingTokens : Option Int) (resume : Option String)
      (dangerouslySkipPermissions : Option Bool)
  | workspaceInit (id : String) (agentType : String)
      (options : WorkspaceInitOptions)
  | cancel (id : String) (agentType : String)
  | query (id : String) (agentType : String) (prompt : String)
      (options : QueryOptionsMsg)
deriving Repr, DecidableEq

/-! `serde` decoding helpers: a required field must be present and
well-typed; an `Option` field may be absent or `null`, but if present
non-null it must be well-typed; unknown keys are ignored. -/

/-- Required field. -/
def decReq (j : Json) (key : String) (dec : Json → Option α) : Option α :=
  (j.get? key).bind dec

/-- Optional (`Option<T>`) field. -/
def decOpt (j : Json) (key : String) (dec : Json → Option α) :
    Option (Option α) :=
  match j.get? key with
  | none => some none
  | some .null => some none
  | some v => (dec v).map some

/-- `i32` from a JSON number. -/
def decI32 (j : Json) : Option Int :=
  j.asInt?.bind (fun n =>
    if -(2 ^ 31) ≤ n ∧ n < 2 ^ 31 then some n else none)

/-- `usize` from a JSON number. -/
def decUsize (j : Json) : Option Nat :=
  j.asInt?.bind (fun n => if 0 ≤ n then some n.toNat else none)

/-- `Vec<String>`. -/
def decStrList (j : Json) : Option (List String) :=
  j.asArr?.bind (fun xs => xs.mapM Json.asStr?)

/-- `Decision` (snake_case strings). -/
def decDecision (j : Json) : Option Decision :=
  j.asStr?.bind (fun s =>
    match s with
    | "allow" => some .allow
    | "deny" => some .deny
    | "allow_always" => some .allowAlways
    | _ => none)

/-- `PermissionMode` (camelCase strings). -/
def decPermissionMode (j : Json) : Option PermissionMode :=
  j.asStr?.bind (fun s =>
    match s with
    | "default" => some .default
    | "acceptEdits" => some .acceptEdits
    | "bypassPermissions" => some .bypassPermissions
    | "plan" => some .plan
    | "delegate" => some .delegate
    | "dontAsk" => some .dontAsk
    | _ => none)

/-- `ControlSubtype` (snake_case strings). -/
def decControlSubtype (j : Json) : Option ControlSubtype :=
  j.asStr?.bind (fun s =>
    match s with
    | "interrupt" => some .interrupt
    | _ => none)

/-- `QuestionAnswer`. -/
def decQuestionAnswer (j : Json) : Option QuestionAnswer := do
  let qi ← decReq j "question_index" decUsize
  let sel ← decReq j "selected" decStrList
  pure ⟨qi, sel⟩

/-- `HashMap<String, String>`. -/
def decMetadata (j : Json) : Option (List (String × String)) :=
  match j with
  | .obj kvs => kvs.mapM (fun kv => (kv.2.asStr?).map (fun v => (kv.1, v)))
  | _ => none

/-- `SessionConfig`: `permission_mode` and `metadata` have serde defaults
(absent → `Default`, absent → empty). -/
def decSessionConfig (j : Json) : Option SessionConfig := do
  let pm ← match j.get? "permission_mode" with
    | none => some PermissionMode.default
    | some v => decPermissionMode v
  let mt ← decOpt j "max_turns" decI32
  let md ← match j.get? "metadata" with
    | none => some ([] : List (String × String))
    | some v => decMetadata v
  pure ⟨pm, mt, md⟩

/-- `WorkspaceInitOptions` (camelCase renames). -/
def decWorkspaceInitOptions (j : Json) : Option WorkspaceInitOptions := do
  let cwd ← decReq j "cwd" Json.asStr?
  let model ← decOpt j "model" Json.asStr?
  let pm ← decOpt j "permissionMode" decPermissionMode
  let dt ← decOpt j "disallowedTools" decStrList
  let mtt ← decOpt j "maxThinkingTokens" decI32
  let dsp ← decOpt j "dangerouslySkipPermissions" Json.asBool?
  let resume ← decOpt j "resume" Json.asStr?
  pure ⟨cwd, model, pm, dt, mtt, dsp, resume⟩

/-- Peer-protocol `QueryOptions` (camelCase renames, `cwd` required). -/
def decQueryOptionsMsg (j : Json) : Option QueryOptionsMsg := do
  let cwd ← decReq j "cwd" Json.asStr?
  let model ← decOpt j "model" Json.asStr?
  let turnId ← decOpt j "turnId" Json.asStr?
  let pm ← decOpt j "permissionMode" decPermissionMode
  let mt ← decOpt j "maxTurns" decI32
  let resume ← decOpt j "resume" Json.asStr?
  pure ⟨cwd, model, turnId, pm, mt, resume⟩

/-- `serde_json::from_value::<ClientMessage>`: dispatch on the `type` tag,
then decode the variant fields (`SessionStart` flattens `SessionConfig`
from the same object). -/
def clientMessageFromJson (j : Json) : Option ClientMessage := do
  let tag ← (j.get? "type").bind Json.asStr?
  match tag with
  | "user_message" => do
    let sid ← decReq j "session_id" Json.asStr?
    let content ← decReq j "content" Json.asStr?
    let ptui ← decOpt j "parent_tool_use_id" Json.asStr?
    pure (.userMessage sid content ptui)
  | "permission_response" => do
    let id ← decReq j "id" Json.asStr?
    let at1 ← decReq j "agentType" Json.asStr?
    let d ← decReq j "decision" decDecision
    pure (.permissionResponse id at1 d)
  | "user_question_response" => do
    let sid ← decReq j "session_id" Json.asStr?
    let rid ← decReq j "request_id" Json.asStr?
    let answers ← decReq j "answers"
      (fun v => v.asArr?.bind (fun xs => xs.mapM decQuestionAnswer))
    pure (.userQuestionResponse sid rid answers)
  | "plan_approval_response" => do
    let sid ← decReq j "session_id" Json.asStr?
    let rid ← decReq j "request_id" Json.asStr?
    let approved ← decReq j "approved" Json.asBool?
    let feedback ← decOpt j "feedback" Json.asStr?
    pure (.planApprovalResponse sid rid approved feedback)
  | "session_start" => do
    let sid ← decReq j "session_id" Json.asStr?
    let config ← decSessionConfig j
    pure (.sessionStart sid config)
  | "session_end" => do
    let sid ← decReq j "session_id" Json.asStr?
    pure (.sessionEnd sid)
  | "control_request" => do
    let sid ← decReq j "session_id" Json.asStr?
    let rid ← decReq j "request_id" Json.asStr?
    let st ← decReq j "subtype" decControlSubtype
    let reason ← decOpt j "reason" Json.asStr?
    pure (.controlRequest sid rid st reason)
  | "set_permission_mode" => do
    let sid ← decReq j "session_id" Json.asStr?
    let mode ← decReq j "mode" decPermissionMode
    pure (.setPermissionMode sid mode)
  | "user_session_init" => do
    let cwd ← decReq j "cwd" Json.asStr?
    let model ← decOpt j "model" Json.asStr?
    let pm ← decOpt j "permission_mode" decPermissionMode
    let mt ← decOpt j "max_turns" decI32
    let mb ← decOpt j "max_budget_usd" Json.asRat?
    let user ← decOpt j "user" Json.asStr?
    let dt ← decOpt j "disallowed_tools" decStrList
    let mtt ← decOpt j "max_thinking_tokens" decI32
    let resume ← decOpt j "resume" Json.asStr?
    let dsp ← decOpt j "dangerouslySkipPermissions" Json.asBool?
    pure (.userSessionInit cwd model pm mt mb user dt mtt resume dsp)
  | "workspace_init" => do
    let id ← decReq j "id" Json.asStr?
    let at1 ← decReq j "agentType" Json.asStr?
    let options ← decReq j "options" decWorkspaceInitOptions
    pure (.workspaceInit id at1 options)
  | "cancel" => do
    let id ← decReq j "id" Json.asStr?
    let at1 ← decReq j "agentType" Json.asStr?
    pure (.cancel id at1)
  | "query" => do
    let id ← decReq j "id" Json.asStr?
    let at1 ← decReq j "agentType" Json.asStr?
    let prompt ← decReq j "prompt" Json.asStr?
    let options ← decReq j "options" decQueryOptionsMsg
    pure (.query id at1 prompt options)
  | _ => none

/-- `serde_json::from_str::<ClientMessage>`. -/
def clientMessageFromStr (s : String) : Option ClientMessage :=
  (parseJsonText s).bind clientMessageFromJson

end AgentKit

namespace AgentKit

/-- `UserSessionInitData` (`src/websocket/src/server.rs` lines 444-464). -/
structure UserSessionInitData where
  requestId : Option String
  isWorkspaceInit : Bool
  cwd : String
  model : Option String
  permissionMode : Option PermissionMode
  maxTurns : Option Int
  maxBudgetUsd : Option Rat
  user : Option String
  disallowedTools : Option (List String)
  maxThinkingTokens : Option Int
  resume : Option String
  dangerouslySkipPermissions : Option Bool
deriving Repr, DecidableEq

/-- `SessionError` (server.rs lines 467-476). -/
inductive SessionError where
  | initTimeout
  | unexpectedMessage (msg : String)
  | connectionClosed
  | webSocketError (e : String)
  | clientInitFailed (e : String)
  | parseError (e : String)
deriving Repr, DecidableEq

/-- `Display for SessionError` (server.rs lines 478-489). -/
def sessionErrorMessage : SessionError → String
  | .initTimeout => "Timeout waiting for UserSessionInit message"
  | .unexpectedMessage msg => "Expected UserSessionInit, got: " ++ msg
  | .connectionClosed => "Connection closed before initialization"
  | .webSocketError e => "WebSocket error: " ++ e
  | .clientInitFailed e => "Failed to initialize Claude client: " ++ e
  | .parseError e => "Failed to parse message: " ++ e

/-- Stand-in for the rendering of `FromUtf8Error`; the exact library text
is not reproduced, no claim depends on it. -/
def utf8ErrorText : String := "invalid utf-8 sequence"

/-- Stand-in for the rendering of `serde_json::Error`; the exact library
text is not reproduced, no claim depends on it. -/
def jsonSyntaxErrorText : String := "invalid client message"

/-- The variant-name prefix computed by
`format!("{:?}", other).split(...)` and taking the first piece: the `Debug`
name up to the opening brace, trailing space included. -/
def debugVariantPrefix : ClientMessage → String
  | .userMessage .. => "UserMessage "
  | .permissionResponse .. => "PermissionResponse "
  | .userQuestionResponse .. => "UserQuestionResponse "
  | .planApprovalResponse .. => "PlanApprovalResponse "
  | .sessionStart .. => "SessionStart "
  | .sessionEnd .. => "SessionEnd "
  | .controlRequest .. => "ControlRequest "
  | .setPermissionMode .. => "SetPermissionMode "
  | .userSessionInit .. => "UserSessionInit "
  | .workspaceInit .. => "WorkspaceInit "
  | .cancel .. => "Cancel "
  | .query .. => "Query "

/-- Is the message one of the two init messages? -/
def ClientMessage.isInit : ClientMessage → Bool
  | .userSessionInit .. => true
  | .workspaceInit .. => true
  | _ => false

/-- One item received from the socket while waiting for init. -/
inductive WsFrame where
  | text (t : String)
  | binary (bytes : List Nat)
  | close
  | ping
  | wsError (e : String)
deriving Repr

/-- Outcome of handling one received item in the init wait loop. -/
inductive InitStep where
  | accept (d : UserSessionInitData)
  | reject (e : SessionError)
  | skip
deriving Repr, DecidableEq

/-- The `ClientMessage` match of `wait_for_init_message` (server.rs lines
526-590): the two init variants are accepted (workspace options filling
the same record), anything else is an `UnexpectedMessage` protocol
error. -/
def clientMessageToInitResult : ClientMessage → InitStep
  | .userSessionInit cwd model pm mt mb user dt mtt resume dsp =>
    .accept ⟨none, false, cwd, model, pm, mt, mb, user, dt, mtt, resume, dsp⟩
  | .workspaceInit _ _ options =>
    .accept ⟨none, true, options.cwd, options.model, options.permissionMode,
      none, none, none, options.disallowedTools, options.maxThinkingTokens,
      options.resume, options.dangerouslySkipPermissions⟩
  | other => .reject (.unexpectedMessage (debugVariantPrefix other))

/-- Parse the text of a first frame and classify it. -/
def handleInitText (t : String) : InitStep :=
  match clientMessageFromStr t with
  | none => .reject (.parseError jsonSyntaxErrorText)
  | some m => clientMessageToInitResult m

/-- The frame match of `wait_for_init_message` (server.rs lines 510-519):
text is parsed; binary is decoded as UTF-8 and then handled exactly like
text; close ends with `ConnectionClosed`; ping/pong frames are skipped;
a socket error is surfaced. -/
def processInitFrame : WsFrame → InitStep
  | .text t => handleInitText t
  | .binary bytes =>
    match utf8Decode? bytes with
    | some t => handleInitText t
    | none => .reject (.parseError utf8ErrorText)
  | .close => .reject .connectionClosed
  | .ping => .skip
  | .wsError e => .reject (.webSocketError e)

/-- The 30-second first-message deadline (server.rs line 498). -/
def initDeadlineSecs : Nat := 30

/-- The timed wait loop of `wait_for_init_message`: items are consumed in
order with their arrival times; an item arriving at or after the deadline
is never seen — the timeout fires first.  `streamEnd` is when the peer
stream would report exhaustion. -/
def waitForInitMessage :
    List (Nat × WsFrame) → Nat → Except SessionError UserSessionInitData
  | [], streamEnd =>
    if initDeadlineSecs ≤ streamEnd then .error .initTimeout
    else .error .connectionClosed
  | (t, f) :: rest, streamEnd =>
    if initDeadlineSecs ≤ t then .error .initTimeout
    else
      match processInitFrame f with
      | .accept d => .ok d
      | .reject e => .error e
      | .skip => waitForInitMessage rest streamEnd

/-- What the bridge does towards the peer socket. -/
inductive SocketAction where
  | sendText (payload : Json)
  | closeConn (code : Option Nat)
deriving Repr

/-- Serialized `AgentEvent::Error` (events.rs lines 182-187, tagged by
`type` in snake_case). -/
def agentErrorEventJson (sessionId message : String) (isFatal : Bool) :
    Json :=
  Json.mkObj [("type", .str "error"), ("session_id", .str sessionId),
    ("message", .str message), ("is_fatal", .bool isFatal)]

/-- What happens on an init failure (server.rs lines 129-136 and 645-663):
`send_error_and_close` sends the fatal error event, `handle_socket`
returns, dropping the writer channel; the writer task then exits its loop
and calls `ws_sender.close()`, which emits a plain close frame carrying no
close code. -/
def initFailureActions (sessionId : String) (e : SessionError) :
    List SocketAction :=
  [.sendText (agentErrorEventJson sessionId (sessionErrorMessage e) true),
    .closeConn none]

/-- The claim's reading of "close code indicating protocol violation":
the RFC 6455 policy-violation status 1008. -/
def closeCodeSignalsProtocolViolation (code : Option Nat) : Prop :=
  code = some 1008

end AgentKit

namespace AgentKit

/-! ## Claims C8 and C9: the init deadline and first-frame handling -/

/-- C8 counterexample: when the peer sends nothing, the 30-second deadline
fires and the bridge sends the fatal error event — but the connection is
then closed plainly (no close code); no close code indicating a protocol
violation is ever sent. -/
theorem init_timeout_plain_close_cex :
    waitForInitMessage [] 31 = .error .initTimeout ∧
    initFailureActions "S1" .initTimeout
      = [.sendText (.obj [("is_fatal", .bool true),
          ("message", .str "Timeout waiting for UserSessionInit message"),
          ("session_id", .str "S1"), ("type", .str "error")]),
        .closeConn none] ∧
    ¬ closeCodeSignalsProtocolViolation none := by
  refine ⟨rfl, ?_, by simp [closeCodeSignalsProtocolViolation]⟩
  simp +decide [initFailureActions, agentErrorEventJson, sessionErrorMessage,
    Json.mkObj, Json.insertKey]

/-- C8 amended: after the 30-second deadline the bridge stops waiting for
the init message and sends a fatal error event to the peer; the connection
is then closed by dropping the writer channel, which produces a plain
close frame with no close code — no protocol-violation close code is
sent. -/
theorem init_timeout_error_event_amended :
    initDeadlineSecs = 30 ∧
    (∀ streamEnd : Nat, 30 ≤ streamEnd →
      waitForInitMessage [] streamEnd = .error .initTimeout) ∧
    (∀ (t : Nat) (f : WsFrame) (rest : List (Nat × WsFrame))
        (streamEnd : Nat), 30 ≤ t →
      waitForInitMessage ((t, f) :: rest) streamEnd = .error .initTimeout) ∧
    (∀ (sessionId : String) (e : SessionError),
      initFailureActions sessionId e
        = [.sendText (agentErrorEventJson sessionId (sessionErrorMessage e)
            true), .closeConn none]) ∧
    (∀ (sessionId : String) (e : SessionError) (c : Option Nat),
      SocketAction.closeConn c ∈ initFailureActions sessionId e →
      c = none ∧ ¬ closeCodeSignalsProtocolViolation c) := by
  refine ⟨rfl, ?_, ?_, ?_, ?_⟩
  · intro streamEnd h
    simp [waitForInitMessage, initDeadlineSecs, h]
  · intro t f rest streamEnd h
    simp [waitForInitMessage, initDeadlineSecs, h]
  · intro sessionId e
    rfl
  · intro sessionId e c hmem
    simp only [initFailureActions, List.mem_cons, List.mem_singleton,
      List.not_mem_nil, or_false] at hmem
    rcases hmem with h | h
    · exact absurd h (by simp)
    · obtain rfl := (SocketAction.closeConn.inj h.symm)
      exact ⟨rfl, by simp [closeCodeSignalsProtocolViolation]⟩

/-- Witness for `init_timeout_error_event_amended` at concrete inputs. -/
theorem init_timeout_error_event_amended_witness :
    waitForInitMessage [] 30 = .error .initTimeout ∧
    waitForInitMessage [(45, .text "hello")] 60 = .error .initTimeout ∧
    ((none : Option Nat) = none ∧
      ¬ closeCodeSignalsProtocolViolation none) :=
  ⟨init_timeout_error_event_amended.2.1 30 (le_refl 30),
    init_timeout_error_event_amended.2.2.1 45 (.text "hello") [] 60
      (by decide),
    init_timeout_error_event_amended.2.2.2.2 "S1" .initTimeout none
      (by simp [initFailureActions])⟩

/-- The opening text of a valid `user_session_init` message. -/
def initTextExample : String :=
  "\x7b\"type\":\"user_session_init\",\"cwd\":\"/tmp\"\x7d"

/-- The same message as the payload of a binary frame. -/
def initBytesExample : List Nat := initTextExample.data.map Char.toNat

/-- The parsed init data of `initTextExample`. -/
def initDataExample : UserSessionInitData :=
  ⟨none, false, "/tmp", none, none, none, none, none, none, none, none,
    none⟩

/-- C9 counterexample: a binary first frame whose bytes are the UTF-8 text
of a valid `user_session_init` message is ACCEPTED as the init message —
binary frames are not rejected as protocol errors. -/
theorem binary_init_frame_accepted_cex :
    utf8Decode? initBytesExample = some initTextExample ∧
    processInitFrame (.binary initBytesExample)
      = .accept initDataExample ∧
    waitForInitMessage [(1, .binary initBytesExample)] 99
      = .ok initDataExample := by
  refine ⟨by decide, by decide, by rfl⟩

/-- C9 amended: a binary first frame is not a protocol error as such — its
bytes are decoded as UTF-8 and then handled exactly like a text frame
(only invalid UTF-8 is a parse error), so a binary frame carrying valid
init JSON is accepted; a first frame, text or binary, whose message parses
to a non-init `ClientMessage` fails initialization with an
`UnexpectedMessage` protocol error. -/
theorem binary_frame_follows_text_path_amended :
    (∀ (bytes : List Nat) (t : String), utf8Decode? bytes = some t →
      processInitFrame (.binary bytes) = processInitFrame (.text t)) ∧
    (∀ bytes : List Nat, utf8Decode? bytes = none →
      processInitFrame (.binary bytes)
        = .reject (.parseError utf8ErrorText)) ∧
    (∀ (s : String) (m : ClientMessage), clientMessageFromStr s = some m →
      m.isInit = false →
      processInitFrame (.text s)
        = .reject (.unexpectedMessage (debugVariantPrefix m))) := by
  refine ⟨?_, ?_, ?_⟩
  · intro bytes t h
    simp [processInitFrame, h]
  · intro bytes h
    simp [processInitFrame, h]
  · intro s m h hni
    simp only [processInitFrame, handleInitText, h]
    cases m <;> simp_all [clientMessageToInitResult, ClientMessage.isInit,
      debugVariantPrefix]

/-- An opening `cancel` message (not an init message). -/
def cancelTextExample : String :=
  "\x7b\"type\":\"cancel\",\"id\":\"x\",\"agentType\":\"claude\"\x7d"

/-- Witness for `binary_frame_follows_text_path_amended` at concrete
inputs: the init bytes follow the text path, and a `cancel` first message
is an `UnexpectedMessage` protocol error. -/
theorem binary_frame_follows_text_path_amended_witness :
    processInitFrame (.binary initBytesExample)
      = processInitFrame (.text initTextExample) ∧
    processInitFrame (.text cancelTextExample)
      = .reject (.unexpectedMessage
          (debugVariantPrefix (.cancel "x" "claude"))) :=
  ⟨binary_frame_follows_text_path_amended.1 initBytesExample
      initTextExample (by decide),
    binary_frame_follows_text_path_amended.2.2 cancelTextExample
      (.cancel "x" "claude") (by decide) (by decide)⟩

end AgentKit
